import Mathlib

/-!
Verification development for the `mech-util` repository: a shallow embedding of
the prompt resolution engine (`mech_util/tools/prompt_manager.py`), the
interface-contract lifecycle (`mech_util/schemas/interface_contract.py`) and the
agent message schemas (`mech_util/schemas/agent_component.py`,
`agent_assembly.py`, `agent_simulation.py`), together with theorems about them.

Modelling conventions:
* Python data trees (the results of `yaml.safe_load`, and the JSON-compatible
  mappings produced by pydantic `model_dump`) are modelled by the inductive
  type `PyValue`; Python `dict`s become association lists.
* Python `float` field values appear in this repository only in order
  comparisons against constant bounds, never in arithmetic; they are modelled
  by `ℚ`.
* Python strings are sequences of code points; the string operations the code
  uses (`split`, `startswith`, `join`, `strip`, `sorted`, `<`) are modelled by
  executable functions on `List Char` so that every definition evaluates by
  kernel reduction.
* The filesystem visible to `PromptManager` is a finite map from paths
  (segment lists relative to `prompts_dir`) to file contents; a content is
  `none` when `yaml.safe_load` would raise on it and `some v` when it parses
  to the Python value `v`.
* Raising an exception is modelled with `Except`/`Option` results.
-/

namespace MechUtil

/-! ### Python value trees -/

/-- A parsed Python data tree: the possible results of `yaml.safe_load` and the
values handled by pydantic `model_dump`/`model_validate` (JSON-compatible
mappings). Dictionaries are association lists with string keys. -/
inductive PyValue where
  | null : PyValue
  | bool : Bool → PyValue
  | int : Int → PyValue
  | num : ℚ → PyValue
  | str : String → PyValue
  | arr : List PyValue → PyValue
  | dict : List (String × PyValue) → PyValue

/-- Python truthiness (`if data:`) for the modelled values. -/
def PyValue.truthy : PyValue → Bool
  | .null => false
  | .bool b => b
  | .int n => n != 0
  | .num q => q != 0
  | .str s => s != ""
  | .arr l => !l.isEmpty
  | .dict l => !l.isEmpty

/-! ### Python string operations, modelled on code-point lists -/

/-- Python `str.split(sep)` with a one-character separator, on code-point
lists: `"".split('.') = [""]`, `"a..b".split('.') = ["a", "", "b"]`. -/
def splitChar (sep : Char) : List Char → List (List Char)
  | [] => [[]]
  | c :: cs =>
    match splitChar sep cs with
    | [] => if c = sep then [[], []] else [[c]]
    | h :: t => if c = sep then [] :: h :: t else (c :: h) :: t

/-- Python `prompt_id.split('.')`. -/
def pySplit (s : String) (sep : Char) : List String :=
  (splitChar sep s.data).map String.mk

/-- Python `'.'.join(parts)`. -/
def pyJoinDot : List String → String
  | [] => ""
  | [s] => s
  | s :: rest => s ++ "." ++ pyJoinDot rest

/-- Lexicographic `≤` on code-point lists: Python string comparison, as used
by `sorted`. -/
def charsLe : List Char → List Char → Bool
  | [], _ => true
  | _ :: _, [] => false
  | a :: as, b :: bs => if a = b then charsLe as bs else decide (a < b)

/-- Python `a <= b` on strings. -/
def strLe (a b : String) : Bool := charsLe a.data b.data

/-- The ordering relation `sorted` uses, as a `Prop`-valued relation. -/
def pyStrLE (a b : String) : Prop := strLe a b = true

instance : DecidableRel pyStrLE := fun a b => by
  unfold pyStrLE; infer_instance

/-- Python `sorted(strings)`: a stable ascending sort. A stable sort is
extensionally unique, so insertion sort gives the same list as Python's
stable mergesort. -/
def pySorted (l : List String) : List String := l.insertionSort pyStrLE

/-- The whitespace characters relevant to `str.strip()` and template
delimiters in this development. -/
def pyWhitespace (c : Char) : Bool :=
  c = ' ' || c = '\t' || c = '\n' || c = '\r'

/-- Strip leading and trailing whitespace from a code-point list. -/
def trimCharList (cs : List Char) : List Char :=
  ((cs.dropWhile pyWhitespace).reverse.dropWhile pyWhitespace).reverse

/-- Python `s.strip()`. -/
def pyStrip (s : String) : String := String.mk (trimCharList s.data)

/-! ### The filesystem under `prompts_dir` -/

/-- A path below the configured prompts directory, as a list of segments. -/
abbrev FilePath' := List String

/-- The filesystem state the prompt manager reads: a finite map from
paths to parse results. `none` models a file on which `yaml.safe_load`
raises; `some v` models a file parsing to `v`. -/
structure FS where
  files : List (FilePath' × Option PyValue)

/-- Open and `yaml.safe_load` the file at `p` (`none` when `p` does not
exist). -/
def FS.read (fs : FS) (p : FilePath') : Option (Option PyValue) :=
  List.lookup p fs.files

/-- Python `path.exists()`. -/
def FS.pathExists (fs : FS) (p : FilePath') : Bool :=
  (fs.read p).isSome

/-! ### Prompt metadata and templates
(`mech_util/tools/prompt_manager.py`, `PromptMetadata`, `PromptTemplate`) -/

/-- Source: `PromptMetadata` (prompt_manager.py lines 20-28). -/
structure PromptMetadata where
  prompt_id : String
  version : String
  description : String
  author : Option String
  output_schema : Option String
  tags : List String
deriving DecidableEq, Repr

/-- Source: `PromptTemplate` (prompt_manager.py lines 31-35). -/
structure PromptTemplate where
  metadata : PromptMetadata
  template : String
deriving DecidableEq, Repr

/-- Extract a Python `str`; pydantic (v2 default, non-coercing for `str`)
rejects any other value. -/
def pvStr? : PyValue → Option String
  | .str s => some s
  | _ => none

/-- Validate an `Optional[str]` pydantic field from an optionally present
dictionary entry: absent or `None` gives `None`, a string is kept, anything
else is a validation error. -/
def pvOptStrField? : Option PyValue → Option (Option String)
  | none => some none
  | some .null => some none
  | some (.str s) => some (some s)
  | some _ => none

/-- Source: `PromptMetadata(**data['metadata'])`: pydantic validation of the metadata
block. `prompt_id` and `version` are required strings; `description` defaults
to `""`; `author` and `output_schema` are optional; `tags` defaults to `[]`
and must be a list of strings. Extra keys are ignored (pydantic default).
`none` models the construction raising. -/
def parseMetadata : PyValue → Option PromptMetadata
  | .dict kvs => do
    let pid ← (List.lookup "prompt_id" kvs).bind pvStr?
    let ver ← (List.lookup "version" kvs).bind pvStr?
    let desc ← match List.lookup "description" kvs with
      | none => some ""
      | some v => pvStr? v
    let auth ← pvOptStrField? (List.lookup "author" kvs)
    let osch ← pvOptStrField? (List.lookup "output_schema" kvs)
    let tgs ← match List.lookup "tags" kvs with
      | none => some []
      | some (.arr l) => l.mapM pvStr?
      | some _ => none
    some ⟨pid, ver, desc, auth, osch, tgs⟩
  | _ => none

/-! ### Prompt loading (`PromptManager.load_prompt`, lines 91-166) -/

/-- The in-memory prompt cache `self._cache`, keyed by `prompt_id`.
Insertion at the head gives Python-dict overwrite semantics under
`List.lookup`. -/
abbrev Cache := List (String × PromptTemplate)

/-- The distinguishable failures of `load_prompt`, named as in the
specification's error taxonomy. In the Python source they surface as:
`invalidPromptId` = `ValueError("Invalid prompt_id format: ...")` (line 114);
`promptNotFound` = `FileNotFoundError` naming the searched paths (line 134);
`malformedPromptFile` = a `yaml` parse error from `yaml.safe_load`
(line 140) or `ValueError` for a non-mapping / missing `metadata` / missing
`template` (lines 142-149); `invalidMetadata` = validation failure of
`PromptMetadata(**data['metadata'])` (line 151); `promptIdMismatch` =
`ValueError("Prompt ID mismatch ...")` (line 155); `invalidTemplate` =
validation failure of `PromptTemplate(...)` on a non-string template
(line 161). -/
inductive LoadError where
  | invalidPromptId (prompt_id : String)
  | promptNotFound (prompt_id : String) (searched : List FilePath')
  | malformedPromptFile (path : FilePath')
  | invalidMetadata (path : FilePath')
  | promptIdMismatch (requested declared : String)
  | invalidTemplate (path : FilePath')
deriving DecidableEq, Repr

/-- Source: `parts[0]` (line 117). -/
def promptCategory (parts : List String) : String := parts.headD ""

/-- Source: `'.'.join(parts[1:-1]) if len(parts) > 2 else parts[1]` (line 118). -/
def promptName (parts : List String) : String :=
  if 2 < parts.length then pyJoinDot (parts.drop 1).dropLast
  else (parts.drop 1).headD ""

/-- The three candidate locations, in search order (lines 121-125). -/
def promptSearchPaths (category name : String) : List FilePath' :=
  [["agents", category, name ++ ".yaml"],
   ["base", name ++ ".yaml"],
   [category, name ++ ".yaml"]]

/-- The search loop of lines 127-131: the first existing path wins; the
winning path is returned together with its parsed content. -/
def resolveContent (fs : FS) : List FilePath' → Option (FilePath' × Option PyValue)
  | [] => none
  | p :: rest =>
    match fs.read p with
    | some c => some (p, c)
    | none => resolveContent fs rest

/-- Lines 138-166 of `load_prompt`: parse the resolved file, check its shape,
validate the metadata, check the declared `prompt_id` against the requested
one, and cache the result. Note the source order: the mismatch check
(line 155) precedes the `PromptTemplate` validation of the template value
(line 161). -/
def parseLoadedFile (cache : Cache) (prompt_id : String) (path : FilePath')
    (content : Option PyValue) : Except LoadError (PromptTemplate × Cache) :=
  match content with
  | none => .error (.malformedPromptFile path)
  | some (.dict kvs) =>
    match List.lookup "metadata" kvs with
    | none => .error (.malformedPromptFile path)
    | some metaVal =>
      match List.lookup "template" kvs with
      | none => .error (.malformedPromptFile path)
      | some tmplVal =>
        match parseMetadata metaVal with
        | none => .error (.invalidMetadata path)
        | some meta =>
          if meta.prompt_id ≠ prompt_id then
            .error (.promptIdMismatch prompt_id meta.prompt_id)
          else
            match tmplVal with
            | .str tmpl =>
              let pt : PromptTemplate := ⟨meta, tmpl⟩
              .ok (pt, (prompt_id, pt) :: cache)
            | _ => .error (.invalidTemplate path)
  | some _ => .error (.malformedPromptFile path)

/-- Lines 127-136: run the search loop and dispatch to file parsing; no
existing candidate is a `promptNotFound` naming all searched paths. -/
def loadFromSearch (fs : FS) (cache : Cache) (prompt_id : String)
    (searched : List FilePath') : Except LoadError (PromptTemplate × Cache) :=
  match resolveContent fs searched with
  | none => .error (.promptNotFound prompt_id searched)
  | some (path, content) => parseLoadedFile cache prompt_id path content

/-- Source: `load_prompt` after the cache check (lines 110-166). -/
def loadUncached (fs : FS) (cache : Cache) (prompt_id : String) :
    Except LoadError (PromptTemplate × Cache) :=
  if (pySplit prompt_id '.').length < 2 then .error (.invalidPromptId prompt_id)
  else
    loadFromSearch fs cache prompt_id
      (promptSearchPaths (promptCategory (pySplit prompt_id '.'))
        (promptName (pySplit prompt_id '.')))

/-- Source: `PromptManager.load_prompt` (lines 91-166). The state of the manager is
its cache; a successful load returns the template together with the updated
cache. -/
def load_prompt (fs : FS) (cache : Cache) (prompt_id : String)
    (use_cache : Bool) : Except LoadError (PromptTemplate × Cache) :=
  match use_cache, List.lookup prompt_id cache with
  | true, some cached => .ok (cached, cache)
  | _, _ => loadUncached fs cache prompt_id

/-- Source: `PromptManager.clear_cache` (lines 246-248). -/
def clear_cache (_cache : Cache) : Cache := []

/-! ### Template rendering (`PromptManager.render_prompt`, lines 168-191)

The substitution engine is the external Jinja2 library; it is modelled here
by an executable variable-interpolation function covering the templates this
layer renders: every occurrence of a `\x7b\x7b name \x7d\x7d` interpolation
is replaced by the context value bound to `name` (the empty string when the
name is unbound, Jinja2's default `Undefined` rendering), and all other text
is passed through verbatim. Context values are modelled as strings. -/

/-- Scan for a closing `\x7d\x7d`, returning the enclosed characters and the
remainder after the delimiter. -/
def findCloseBraces : List Char → Option (List Char × List Char)
  | [] => none
  | '\x7d' :: '\x7d' :: rest => some ([], rest)
  | c :: rest =>
    match findCloseBraces rest with
    | some (v, r) => some (c :: v, r)
    | none => none

/-- Look a variable up in the render context; an unbound variable renders as
the empty string. -/
def lookupVar (ctx : List (String × String)) (name : String) : String :=
  (List.lookup name ctx).getD ""

/-- One pass of variable interpolation. The `fuel` argument makes the
recursion structural so that the function evaluates by kernel reduction;
`fuel` is initialised to the length of the character list, which the
recursion never exhausts since every step consumes at least one character. -/
def substVarsFuel (ctx : List (String × String)) : Nat → List Char → List Char
  | 0, cs => cs
  | fuel + 1, cs =>
    match cs with
    | '\x7b' :: '\x7b' :: rest =>
      match findCloseBraces rest with
      | some (v, r) =>
        (lookupVar ctx (String.mk (trimCharList v))).data ++ substVarsFuel ctx fuel r
      | none => '\x7b' :: '\x7b' :: substVarsFuel ctx fuel rest
    | c :: rest => c :: substVarsFuel ctx fuel rest
    | [] => []

/-- Jinja2 variable interpolation over a template body (model of
`self.jinja_env.from_string(template).render(**context)`). -/
def renderTemplate (tmpl : String) (ctx : List (String × String)) : String :=
  String.mk (substVarsFuel ctx tmpl.data.length tmpl.data)

/-- Source: `PromptManager.render_prompt` (lines 168-191): load (honouring the
cache), substitute, and strip leading/trailing whitespace. -/
def render_prompt (fs : FS) (cache : Cache) (prompt_id : String)
    (ctx : List (String × String)) (use_cache : Bool) :
    Except LoadError (String × Cache) :=
  match load_prompt fs cache prompt_id use_cache with
  | .error e => .error e
  | .ok (pt, cache') => .ok (pyStrip (renderTemplate pt.template ctx), cache')

/-! ### Prompt discovery (`PromptManager.list_prompts`, lines 206-244) -/

/-- Does the path name a `*.yaml` file (the `rglob("*.yaml")` pattern)? -/
def isYamlFile (p : FilePath') : Bool :=
  match p.getLast? with
  | some fname => ".yaml".data.isSuffixOf fname.data
  | none => false

/-- Is `p` a path strictly below directory `dir`? -/
def underDir (dir : FilePath') (p : FilePath') : Bool :=
  dir.isPrefixOf p && decide (dir.length < p.length)

/-- Source: `search_dir.rglob("*.yaml")`: every `*.yaml` file below `dir`, with its
parse result. A directory that does not exist contributes no files. -/
def dirYamlFiles (fs : FS) (dir : FilePath') : List (FilePath' × Option PyValue) :=
  fs.files.filter (fun f => underDir dir f.1 && isYamlFile f.1)

/-- The contribution of one scanned file to `list_prompts` (lines 230-242):
the body of the `try` block, where any exception — a `yaml` parse error, a
non-subscriptable `data['metadata']`, a non-string `prompt_id` hitting
`.startswith` — is swallowed by the `except` and the file contributes
nothing. A file contributes its declared `prompt_id` when it parses to a
truthy value containing a `metadata` mapping with a truthy `prompt_id`
that passes the optional category filter `pid.startswith(category + ".")`. -/
def fileContrib (category : Option String) : Option PyValue → List String
  | none => []
  | some data =>
    match data with
    | .dict kvs =>
      if kvs.isEmpty then []
      else
        match List.lookup "metadata" kvs with
        | some (.dict m) =>
          match List.lookup "prompt_id" m with
          | some (.str pid) =>
            if pid = "" then []
            else
              match category with
              | none => [pid]
              | some c =>
                if (c ++ ".").data.isPrefixOf pid.data then [pid] else []
          | _ => []
        | _ => []
    | _ => []

/-- The `prompt_ids` accumulator at line 244, before sorting: every scanned
file under `agents/` then `base/` appends its contribution. -/
def collectedPids (fs : FS) (category : Option String) : List String :=
  (dirYamlFiles fs ["agents"] ++ dirYamlFiles fs ["base"]).flatMap
    (fun f => fileContrib category f.2)

/-- Source: `PromptManager.list_prompts` (lines 206-244): `return sorted(prompt_ids)`. -/
def list_prompts (fs : FS) (category : Option String) : List String :=
  pySorted (collectedPids fs category)

/-! ### Interface contracts (`mech_util/schemas/interface_contract.py`) -/

/-- Timestamps (`datetime` values) are opaque provenance tokens in this data
model; they are modelled as strings. -/
abbrev Timestamp := String

/-- Source: `InterfaceType` (interface_contract.py lines 14-22), with its literal
wire values. -/
inductive InterfaceType where
  | mechanical_mate
  | bolt_pattern
  | alignment_feature
  | clearance_envelope
  | electrical_connector
  | fluid_port
deriving DecidableEq, Repr

/-- The literal string `.value` of an `InterfaceType`. -/
def InterfaceType.value : InterfaceType → String
  | .mechanical_mate => "mechanical_mate"
  | .bolt_pattern => "bolt_pattern"
  | .alignment_feature => "alignment_feature"
  | .clearance_envelope => "clearance_envelope"
  | .electrical_connector => "electrical_connector"
  | .fluid_port => "fluid_port"

/-- Source: `CoordinateFrame` (interface_contract.py lines 25-63): origin and three
axis vectors, each constrained to exactly 3 components, plus a textual
reference. -/
structure CoordinateFrame where
  origin : List ℚ
  x_axis : List ℚ
  y_axis : List ℚ
  z_axis : List ℚ
  reference_description : String
deriving DecidableEq, Repr

/-- Source: `InterfaceContract` (interface_contract.py lines 66-168). -/
structure InterfaceContract where
  schema_version : String
  interface_id : String
  parent_program_id : String
  component_a : String
  component_b : String
  interface_type : InterfaceType
  description : String
  coordinate_frame : Option CoordinateFrame
  geometric_spec : List (String × PyValue)
  tolerance : Option String
  is_frozen : Bool
  frozen_at : Option Timestamp
  created_at : Timestamp

/-- The interface-lifecycle failure conditions of the specification's error
taxonomy. -/
inductive LifecycleError where
  | alreadyFrozen
  | frozenContractViolation
deriving DecidableEq, Repr

/-- Modelled from the spec: the repository's `interface_contract.py` defines
only the `InterfaceContract` schema with its `is_frozen` flag and `frozen_at`
timestamp; the freeze transition itself ("transitions to frozen exactly
once", "attempting to freeze an already-frozen contract should fail with a
`AlreadyFrozen` condition rather than silently re-stamping the timestamp")
belongs to the owning workflow, which is not under `src/`. Freezing an
unfrozen contract sets the flag and stamps `frozen_at`; freezing a frozen
contract fails with `AlreadyFrozen` and leaves the contract untouched. -/
def freezeContract (c : InterfaceContract) (now : Timestamp) :
    Except LifecycleError InterfaceContract :=
  if c.is_frozen then .error .alreadyFrozen
  else .ok { c with is_frozen := true, frozen_at := some now }

/-- Modelled from the spec: "Any structural geometry field change while
FROZEN must be rejected with a `FrozenContractViolation` condition" — the
guarded edit of `geometric_spec` the owning workflow (absent from `src/`)
must perform. -/
def setGeometricSpec (c : InterfaceContract) (v : List (String × PyValue)) :
    Except LifecycleError InterfaceContract :=
  if c.is_frozen then .error .frozenContractViolation
  else .ok { c with geometric_spec := v }

/-- Modelled from the spec: the guarded edit of `coordinate_frame` (see
`setGeometricSpec`). -/
def setCoordinateFrame (c : InterfaceContract) (v : Option CoordinateFrame) :
    Except LifecycleError InterfaceContract :=
  if c.is_frozen then .error .frozenContractViolation
  else .ok { c with coordinate_frame := v }

/-- Modelled from the spec: the guarded edit of `tolerance` (see
`setGeometricSpec`). -/
def setTolerance (c : InterfaceContract) (v : Option String) :
    Except LifecycleError InterfaceContract :=
  if c.is_frozen then .error .frozenContractViolation
  else .ok { c with tolerance := v }

/-! ### Simulation enums (`mech_util/schemas/agent_simulation.py` lines 20-53) -/

/-- Source: `SimulationType` with its literal lowercase wire values. -/
inductive SimulationType where
  | static_stress
  | modal_analysis
  | thermal_steady_state
  | thermal_transient
  | buckling
  | fatigue
deriving DecidableEq, Repr

/-- The literal string `.value` of a `SimulationType`. -/
def SimulationType.value : SimulationType → String
  | .static_stress => "static_stress"
  | .modal_analysis => "modal_analysis"
  | .thermal_steady_state => "thermal_steady_state"
  | .thermal_transient => "thermal_transient"
  | .buckling => "buckling"
  | .fatigue => "fatigue"

/-- Deserialize a `SimulationType` from its wire string. -/
def SimulationType.ofValue? (s : String) : Option SimulationType :=
  if s = "static_stress" then some .static_stress
  else if s = "modal_analysis" then some .modal_analysis
  else if s = "thermal_steady_state" then some .thermal_steady_state
  else if s = "thermal_transient" then some .thermal_transient
  else if s = "buckling" then some .buckling
  else if s = "fatigue" then some .fatigue
  else none

/-- Source: `BoundaryConditionType` (lines 30-36). -/
inductive BoundaryConditionType where
  | fixed
  | displacement
  | symmetry
  | contact
  | remote_force
deriving DecidableEq, Repr

/-- The literal string `.value` of a `BoundaryConditionType`. -/
def BoundaryConditionType.value : BoundaryConditionType → String
  | .fixed => "fixed"
  | .displacement => "displacement"
  | .symmetry => "symmetry"
  | .contact => "contact"
  | .remote_force => "remote_force"

/-- Deserialize a `BoundaryConditionType` from its wire string. -/
def BoundaryConditionType.ofValue? (s : String) : Option BoundaryConditionType :=
  if s = "fixed" then some .fixed
  else if s = "displacement" then some .displacement
  else if s = "symmetry" then some .symmetry
  else if s = "contact" then some .contact
  else if s = "remote_force" then some .remote_force
  else none

/-- Source: `LoadType` (lines 39-45). -/
inductive LoadType where
  | force
  | pressure
  | moment
  | gravity
  | temperature
deriving DecidableEq, Repr

/-- The literal string `.value` of a `LoadType`. -/
def LoadType.value : LoadType → String
  | .force => "force"
  | .pressure => "pressure"
  | .moment => "moment"
  | .gravity => "gravity"
  | .temperature => "temperature"

/-- Deserialize a `LoadType` from its wire string. -/
def LoadType.ofValue? (s : String) : Option LoadType :=
  if s = "force" then some .force
  else if s = "pressure" then some .pressure
  else if s = "moment" then some .moment
  else if s = "gravity" then some .gravity
  else if s = "temperature" then some .temperature
  else none

/-- Source: `SimulationStatus` (lines 48-52). -/
inductive SimulationStatus where
  | success
  | failed
  | diverged
deriving DecidableEq, Repr

/-- The literal string `.value` of a `SimulationStatus`. -/
def SimulationStatus.value : SimulationStatus → String
  | .success => "success"
  | .failed => "failed"
  | .diverged => "diverged"

/-- Deserialize a `SimulationStatus` from its wire string. -/
def SimulationStatus.ofValue? (s : String) : Option SimulationStatus :=
  if s = "success" then some .success
  else if s = "failed" then some .failed
  else if s = "diverged" then some .diverged
  else none

/-! ### Field-validation helpers

pydantic validates fields in declaration order and collects every failing
field; a validation failure is modelled as the nonempty list of offending
field names (the payload of the specification's `SchemaValidationError`).
In the constructor models below, an `Option` argument for a required field
records whether the caller supplied it (`none` = missing field), while an
`Option` argument for an `Optional[...]` field is the field value itself. -/

/-- Constraint check for a required field: missing is an error naming the
field, present values are checked. -/
def reqErr {α : Type} (name : String) (v : Option α) (check : α → List String) :
    List String :=
  match v with
  | none => [name]
  | some a => check a

/-- A field with no constraint beyond its type. -/
def noCheck {α : Type} : α → List String := fun _ => []

/-- Source: `Field(..., gt=0)` on a numeric field. -/
def ratGt0Err (name : String) (v : ℚ) : List String :=
  if 0 < v then [] else [name]

/-- Source: `Field(default=None, gt=0)` on an `Optional` numeric field: `None`
passes, a present value must be positive. -/
def optRatGt0Err (name : String) : Option ℚ → List String
  | none => []
  | some v => ratGt0Err name v

/-- Source: `Field(..., min_length=n)` on a string field. -/
def minLenErr (name : String) (n : Nat) (s : String) : List String :=
  if n ≤ s.length then [] else [name]

/-- Source: `Field(..., min_length=3, max_length=3)` on a vector field. -/
def len3Err (name : String) (l : List ℚ) : List String :=
  if l.length = 3 then [] else [name]

/-! ### Simulation sub-entities (`agent_simulation.py` lines 59-209) -/

/-- Source: `BoundaryCondition` (lines 59-97): no numeric constraints. -/
structure BoundaryCondition where
  bc_type : BoundaryConditionType
  geometric_region : List (String × PyValue)
  values : List (String × ℚ)

/-- Source: `Load` (lines 100-137): no numeric constraints (`direction` has no
length bound). -/
structure Load where
  load_type : LoadType
  magnitude : ℚ
  direction : Option (List ℚ)
  geometric_region : List (String × PyValue)

/-- Source: `MaterialProperties` (lines 140-187). -/
structure MaterialProperties where
  material_name : String
  youngs_modulus_gpa : ℚ
  poissons_ratio : ℚ
  density_kg_m3 : ℚ
  yield_strength_mpa : Option ℚ
  ultimate_strength_mpa : Option ℚ
  thermal_conductivity_w_mk : Option ℚ
  specific_heat_j_kgk : Option ℚ
deriving DecidableEq, Repr

/-- The pydantic field constraints of `MaterialProperties`, in declaration
order: `youngs_modulus_gpa > 0`, `0 ≤ poissons_ratio ≤ 0.5`,
`density_kg_m3 > 0`, and `> 0` for the optional strength fields when
present. -/
def MaterialProperties.validationErrors (m : MaterialProperties) : List String :=
  ratGt0Err "youngs_modulus_gpa" m.youngs_modulus_gpa ++
  (if 0 ≤ m.poissons_ratio ∧ m.poissons_ratio ≤ 1/2 then [] else ["poissons_ratio"]) ++
  ratGt0Err "density_kg_m3" m.density_kg_m3 ++
  optRatGt0Err "yield_strength_mpa" m.yield_strength_mpa ++
  optRatGt0Err "ultimate_strength_mpa" m.ultimate_strength_mpa

/-- Source: `MaterialProperties(...)`: eager construction-time validation. -/
def mkMaterialProperties (material_name : Option String)
    (youngs_modulus_gpa poissons_ratio density_kg_m3 : Option ℚ)
    (yield_strength_mpa ultimate_strength_mpa : Option ℚ)
    (thermal_conductivity_w_mk specific_heat_j_kgk : Option ℚ) :
    Except (List String) MaterialProperties :=
  let errs :=
    reqErr "material_name" material_name noCheck ++
    reqErr "youngs_modulus_gpa" youngs_modulus_gpa (ratGt0Err "youngs_modulus_gpa") ++
    reqErr "poissons_ratio" poissons_ratio
      (fun v => if 0 ≤ v ∧ v ≤ 1/2 then [] else ["poissons_ratio"]) ++
    reqErr "density_kg_m3" density_kg_m3 (ratGt0Err "density_kg_m3") ++
    optRatGt0Err "yield_strength_mpa" yield_strength_mpa ++
    optRatGt0Err "ultimate_strength_mpa" ultimate_strength_mpa
  match material_name, youngs_modulus_gpa, poissons_ratio, density_kg_m3 with
  | some mn, some y, some p, some d =>
    if errs.isEmpty then
      .ok ⟨mn, y, p, d, yield_strength_mpa, ultimate_strength_mpa,
           thermal_conductivity_w_mk, specific_heat_j_kgk⟩
    else .error errs
  | _, _, _, _ => .error errs

/-- Source: `MeshSettings` (lines 190-209). -/
structure MeshSettings where
  element_size_mm : ℚ
  refinement_regions : List (List (String × PyValue))
  element_order : Int

/-- The pydantic field constraints of `MeshSettings`:
`element_size_mm > 0` and `1 ≤ element_order ≤ 2`. -/
def MeshSettings.validationErrors (m : MeshSettings) : List String :=
  ratGt0Err "element_size_mm" m.element_size_mm ++
  (if 1 ≤ m.element_order ∧ m.element_order ≤ 2 then [] else ["element_order"])

/-- Source: `MeshSettings(...)`: `element_order` defaults to 1 when not supplied. -/
def mkMeshSettings (element_size_mm : Option ℚ)
    (refinement_regions : List (List (String × PyValue)))
    (element_order : Option Int) : Except (List String) MeshSettings :=
  let o := element_order.getD 1
  let errs :=
    reqErr "element_size_mm" element_size_mm (ratGt0Err "element_size_mm") ++
    (if 1 ≤ o ∧ o ≤ 2 then [] else ["element_order"])
  match element_size_mm with
  | some s => if errs.isEmpty then .ok ⟨s, refinement_regions, o⟩ else .error errs
  | none => .error errs

/-- The pydantic field constraints of `CoordinateFrame`: each vector has
exactly 3 components (`min_length=3, max_length=3`). -/
def CoordinateFrame.validationErrors (f : CoordinateFrame) : List String :=
  len3Err "origin" f.origin ++ len3Err "x_axis" f.x_axis ++
  len3Err "y_axis" f.y_axis ++ len3Err "z_axis" f.z_axis

/-- Source: `CoordinateFrame(...)`: eager construction-time validation. -/
def mkCoordinateFrame (origin x_axis y_axis z_axis : Option (List ℚ))
    (reference_description : Option String) :
    Except (List String) CoordinateFrame :=
  let errs :=
    reqErr "origin" origin (len3Err "origin") ++
    reqErr "x_axis" x_axis (len3Err "x_axis") ++
    reqErr "y_axis" y_axis (len3Err "y_axis") ++
    reqErr "z_axis" z_axis (len3Err "z_axis") ++
    reqErr "reference_description" reference_description noCheck
  match origin, x_axis, y_axis, z_axis, reference_description with
  | some o, some x, some y, some z, some rd =>
    if errs.isEmpty then .ok ⟨o, x, y, z, rd⟩ else .error errs
  | _, _, _, _, _ => .error errs

/-! ### Component schemas (`mech_util/schemas/agent_component.py`) -/

/-- Source: `ComponentIntent` (agent_component.py lines 13-121). -/
structure ComponentIntent where
  schema_version : String
  component_id : String
  parent_program_id : String
  parent_assembly_id : Option String
  component_name : String
  functional_description : String
  interface_contracts : List String
  material_preference : Option String
  manufacturing_process : Option String
  design_constraints : List (String × PyValue)
  reference_requirements : List String
  revision : Int
  is_frozen : Bool
  created_at : Timestamp
  updated_at : Timestamp

/-- The pydantic field constraints of `ComponentIntent`:
`component_name` min length 1, `functional_description` min length 10. -/
def ComponentIntent.validationErrors (x : ComponentIntent) : List String :=
  minLenErr "component_name" 1 x.component_name ++
  minLenErr "functional_description" 10 x.functional_description

/-- Source: `ComponentIntent(...)`: eager construction-time validation. `now` stands
for the construction-time clock used by the timestamp default factories. -/
def mkComponentIntent (component_id parent_program_id : Option String)
    (parent_assembly_id : Option String)
    (component_name functional_description : Option String)
    (interface_contracts : List String)
    (material_preference manufacturing_process : Option String)
    (design_constraints : List (String × PyValue))
    (reference_requirements : List String)
    (revision : Option Int) (is_frozen : Option Bool) (now : Timestamp) :
    Except (List String) ComponentIntent :=
  let errs :=
    reqErr "component_id" component_id noCheck ++
    reqErr "parent_program_id" parent_program_id noCheck ++
    reqErr "component_name" component_name (minLenErr "component_name" 1) ++
    reqErr "functional_description" functional_description
      (minLenErr "functional_description" 10)
  match component_id, parent_program_id, component_name, functional_description with
  | some cid, some prog, some nm, some fd =>
    if errs.isEmpty then
      .ok ⟨"1.0.0", cid, prog, parent_assembly_id, nm, fd, interface_contracts,
           material_preference, manufacturing_process, design_constraints,
           reference_requirements, revision.getD 1, is_frozen.getD false, now, now⟩
    else .error errs
  | _, _, _, _ => .error errs

/-- Source: `ComponentPackage` (agent_component.py lines 124-231). -/
structure ComponentPackage where
  schema_version : String
  component_id : String
  parent_program_id : String
  artifact_uris : List (String × String)
  semantic_tags : List (String × String)
  design_parameters : List (String × PyValue)
  validation_status : String
  validation_messages : List String
  interface_compliance : List (String × Bool)
  design_notes : Option String
  generated_at : Timestamp

/-- Source: `ComponentPackage(...)`: `component_id`, `parent_program_id`,
`artifact_uris` and `validation_status` are required; the source declares no
constraint on the contents of `artifact_uris` (in particular no non-empty
bound) and none on `validation_status`. -/
def mkComponentPackage (component_id parent_program_id : Option String)
    (artifact_uris : Option (List (String × String)))
    (semantic_tags : List (String × String))
    (design_parameters : List (String × PyValue))
    (validation_status : Option String)
    (validation_messages : List String)
    (interface_compliance : List (String × Bool))
    (design_notes : Option String) (now : Timestamp) :
    Except (List String) ComponentPackage :=
  let errs :=
    reqErr "component_id" component_id noCheck ++
    reqErr "parent_program_id" parent_program_id noCheck ++
    reqErr "artifact_uris" artifact_uris noCheck ++
    reqErr "validation_status" validation_status noCheck
  match component_id, parent_program_id, artifact_uris, validation_status with
  | some cid, some prog, some uris, some vs =>
    .ok ⟨"1.0.0", cid, prog, uris, semantic_tags, design_parameters, vs,
         validation_messages, interface_compliance, design_notes, now⟩
  | _, _, _, _ => .error errs

/-! ### Assembly schemas (`mech_util/schemas/agent_assembly.py`) -/

/-- Source: `AssemblyIntent` (agent_assembly.py lines 13-123). -/
structure AssemblyIntent where
  schema_version : String
  assembly_id : String
  parent_program_id : String
  parent_assembly_id : Option String
  assembly_name : String
  functional_description : String
  child_components : List String
  child_assemblies : List String
  interface_contracts : List String
  mating_instructions : Option String
  assembly_constraints : List (String × PyValue)
  reference_requirements : List String
  revision : Int
  is_frozen : Bool
  created_at : Timestamp
  updated_at : Timestamp

/-- The pydantic field constraints of `AssemblyIntent`: `assembly_name` min
length 1, `functional_description` min length 10. -/
def AssemblyIntent.validationErrors (x : AssemblyIntent) : List String :=
  minLenErr "assembly_name" 1 x.assembly_name ++
  minLenErr "functional_description" 10 x.functional_description

/-- Source: `AssemblyPackage` (agent_assembly.py lines 126-235). -/
structure AssemblyPackage where
  schema_version : String
  assembly_id : String
  parent_program_id : String
  artifact_uris : List (String × String)
  bom : List (List (String × PyValue))
  mating_relationships : List (List (String × PyValue))
  validation_status : String
  interference_check : List (String × PyValue)
  clearance_violations : List String
  envelope_compliance : Option Bool
  assembly_notes : Option String
  generated_at : Timestamp

/-! ### Simulation request/report (`agent_simulation.py` lines 216-386) -/

/-- Source: `SimulationRequest` (lines 216-283). -/
structure SimulationRequest where
  schema_version : String
  simulation_id : String
  component_id : String
  parent_program_id : String
  artifact_uri : String
  simulation_type : SimulationType
  boundary_conditions : List BoundaryCondition
  loads : List Load
  material_properties : MaterialProperties
  mesh_settings : MeshSettings
  analysis_settings : List (String × PyValue)

/-- The constraints of `SimulationRequest` are those of its nested models. -/
def SimulationRequest.validationErrors (x : SimulationRequest) : List String :=
  x.material_properties.validationErrors ++ x.mesh_settings.validationErrors

/-- Source: `SimulationReport` (lines 290-386): no numeric constraints. `status` and
`pass_fail` are independent fields. -/
structure SimulationReport where
  schema_version : String
  report_id : String
  component_id : String
  parent_program_id : String
  simulation_type : SimulationType
  status : SimulationStatus
  max_stress_mpa : Option ℚ
  max_displacement_mm : Option ℚ
  safety_factor : Option ℚ
  pass_fail : Option Bool
  summary : String
  artifact_refs : List String
  generated_at : Timestamp

/-! ### Serialization to JSON-compatible mappings

`model_dump` turns an entity into a `PyValue` mapping with the exact Python
field names; `model_validate` parses such a mapping back, re-running the
pydantic field validation. Enumerations travel as their literal lowercase
string values. -/

/-- Encode an `Optional[str]` field (`None` ↦ `null`). -/
def pvOptStr : Option String → PyValue
  | none => .null
  | some s => .str s

/-- Encode an `Optional[float]` field. -/
def pvOptRat : Option ℚ → PyValue
  | none => .null
  | some q => .num q

/-- Encode an `Optional[bool]` field. -/
def pvOptBool : Option Bool → PyValue
  | none => .null
  | some b => .bool b

/-- Encode a `list[str]` field. -/
def pvStrArr (l : List String) : PyValue := .arr (l.map .str)

/-- Encode a `list[float]` field. -/
def pvRatArr (l : List ℚ) : PyValue := .arr (l.map .num)

/-- Encode an `Optional[list[float]]` field. -/
def pvOptRatArr : Option (List ℚ) → PyValue
  | none => .null
  | some l => pvRatArr l

/-- Encode a `dict[str, str]` field. -/
def pvStrDict (l : List (String × String)) : PyValue :=
  .dict (l.map fun kv => (kv.1, .str kv.2))

/-- Encode a `dict[str, bool]` field. -/
def pvBoolDict (l : List (String × Bool)) : PyValue :=
  .dict (l.map fun kv => (kv.1, .bool kv.2))

/-- Encode a `dict[str, float]` field. -/
def pvRatDict (l : List (String × ℚ)) : PyValue :=
  .dict (l.map fun kv => (kv.1, .num kv.2))

/-- Encode a `list[dict[str, Any]]` field. -/
def pvDictArr (l : List (List (String × PyValue))) : PyValue :=
  .arr (l.map .dict)

/-- Decode a Python `bool`. -/
def pvBool? : PyValue → Option Bool
  | .bool b => some b
  | _ => none

/-- Decode a Python `int`. -/
def pvInt? : PyValue → Option Int
  | .int n => some n
  | _ => none

/-- Decode a Python number into the `ℚ` model of `float` (pydantic coerces
`int` to `float`). -/
def pvRat? : PyValue → Option ℚ
  | .num q => some q
  | .int n => some (n : ℚ)
  | _ => none

/-- Decode a `dict`. -/
def pvDict? : PyValue → Option (List (String × PyValue))
  | .dict kvs => some kvs
  | _ => none

/-- Decode each element of a list, failing if any element fails. -/
def decodeList {α : Type} (f : PyValue → Option α) :
    List PyValue → Option (List α)
  | [] => some []
  | v :: rest =>
    match f v, decodeList f rest with
    | some a, some l => some (a :: l)
    | _, _ => none

/-- Decode each value of an association list, failing if any value fails. -/
def decodePairs {α : Type} (f : PyValue → Option α) :
    List (String × PyValue) → Option (List (String × α))
  | [] => some []
  | (k, v) :: rest =>
    match f v, decodePairs f rest with
    | some a, some l => some ((k, a) :: l)
    | _, _ => none

/-- Decode a `list[str]` field. -/
def pvStrList? : PyValue → Option (List String)
  | .arr l => decodeList pvStr? l
  | _ => none

/-- Decode a `list[float]` field. -/
def pvRatList? : PyValue → Option (List ℚ)
  | .arr l => decodeList pvRat? l
  | _ => none

/-- Decode an `Optional[str]` field value. -/
def pvOptStr? : PyValue → Option (Option String)
  | .null => some none
  | .str s => some (some s)
  | _ => none

/-- Decode an `Optional[float]` field value. -/
def pvOptRat? : PyValue → Option (Option ℚ)
  | .null => some none
  | v => (pvRat? v).map some

/-- Decode an `Optional[bool]` field value. -/
def pvOptBool? : PyValue → Option (Option Bool)
  | .null => some none
  | .bool b => some (some b)
  | _ => none

/-- Decode an `Optional[list[float]]` field value. -/
def pvOptRatArr? : PyValue → Option (Option (List ℚ))
  | .null => some none
  | v => (pvRatList? v).map some

/-- Decode a `dict[str, str]` field. -/
def pvStrDict? : PyValue → Option (List (String × String))
  | .dict kvs => decodePairs pvStr? kvs
  | _ => none

/-- Decode a `dict[str, bool]` field. -/
def pvBoolDict? : PyValue → Option (List (String × Bool))
  | .dict kvs => decodePairs pvBool? kvs
  | _ => none

/-- Decode a `dict[str, float]` field. -/
def pvRatDict? : PyValue → Option (List (String × ℚ))
  | .dict kvs => decodePairs pvRat? kvs
  | _ => none

/-- Decode a `list[dict[str, Any]]` field. -/
def pvDictArr? : PyValue → Option (List (List (String × PyValue)))
  | .arr l => decodeList pvDict? l
  | _ => none

/-- Decode a list of nested models with the given element decoder. -/
def pvListOf? {α : Type} (f : PyValue → Option α) : PyValue → Option (List α)
  | .arr l => decodeList f l
  | _ => none

/-- Extract and decode a required field of a validated mapping. -/
def reqField {α : Type} (kvs : List (String × PyValue)) (k : String)
    (f : PyValue → Option α) : Option α :=
  (List.lookup k kvs).bind f

/-- Extract and decode a field with a declared default: an absent key takes
the default. (For the timestamp fields whose Python default is the
construction-time clock, the default value is irrelevant to the theorems
below: dumped payloads always carry the key.) -/
def defField {α : Type} (kvs : List (String × PyValue)) (k : String)
    (f : PyValue → Option α) (d : α) : Option α :=
  match List.lookup k kvs with
  | none => some d
  | some v => f v

/-- Source: `BoundaryCondition.model_dump`. -/
def BoundaryCondition.model_dump (x : BoundaryCondition) : PyValue :=
  .dict [("bc_type", .str x.bc_type.value),
         ("geometric_region", .dict x.geometric_region),
         ("values", pvRatDict x.values)]

/-- Source: `BoundaryCondition.model_validate`. -/
def BoundaryCondition.model_validate (v : PyValue) : Option BoundaryCondition := do
  let kvs ← pvDict? v
  let bt ← reqField kvs "bc_type" (fun y => (pvStr? y).bind BoundaryConditionType.ofValue?)
  let gr ← reqField kvs "geometric_region" pvDict?
  let vals ← defField kvs "values" pvRatDict? []
  some ⟨bt, gr, vals⟩

/-- Source: `Load.model_dump`. -/
def Load.model_dump (x : Load) : PyValue :=
  .dict [("load_type", .str x.load_type.value),
         ("magnitude", .num x.magnitude),
         ("direction", pvOptRatArr x.direction),
         ("geometric_region", .dict x.geometric_region)]

/-- Source: `Load.model_validate`. -/
def Load.model_validate (v : PyValue) : Option Load := do
  let kvs ← pvDict? v
  let lt ← reqField kvs "load_type" (fun y => (pvStr? y).bind LoadType.ofValue?)
  let mag ← reqField kvs "magnitude" pvRat?
  let dir ← defField kvs "direction" pvOptRatArr? none
  let gr ← reqField kvs "geometric_region" pvDict?
  some ⟨lt, mag, dir, gr⟩

/-- Source: `MaterialProperties.model_dump`. -/
def MaterialProperties.model_dump (x : MaterialProperties) : PyValue :=
  .dict [("material_name", .str x.material_name),
         ("youngs_modulus_gpa", .num x.youngs_modulus_gpa),
         ("poissons_ratio", .num x.poissons_ratio),
         ("density_kg_m3", .num x.density_kg_m3),
         ("yield_strength_mpa", pvOptRat x.yield_strength_mpa),
         ("ultimate_strength_mpa", pvOptRat x.ultimate_strength_mpa),
         ("thermal_conductivity_w_mk", pvOptRat x.thermal_conductivity_w_mk),
         ("specific_heat_j_kgk", pvOptRat x.specific_heat_j_kgk)]

/-- Source: `MaterialProperties.model_validate`: parses the fields and re-runs the
numeric-bound validation. -/
def MaterialProperties.model_validate (v : PyValue) : Option MaterialProperties := do
  let kvs ← pvDict? v
  let mn ← reqField kvs "material_name" pvStr?
  let y ← reqField kvs "youngs_modulus_gpa" pvRat?
  let p ← reqField kvs "poissons_ratio" pvRat?
  let d ← reqField kvs "density_kg_m3" pvRat?
  let ys ← defField kvs "yield_strength_mpa" pvOptRat? none
  let us ← defField kvs "ultimate_strength_mpa" pvOptRat? none
  let tc ← defField kvs "thermal_conductivity_w_mk" pvOptRat? none
  let sh ← defField kvs "specific_heat_j_kgk" pvOptRat? none
  let m : MaterialProperties := ⟨mn, y, p, d, ys, us, tc, sh⟩
  if m.validationErrors.isEmpty then some m else none

/-- Source: `MeshSettings.model_dump`. -/
def MeshSettings.model_dump (x : MeshSettings) : PyValue :=
  .dict [("element_size_mm", .num x.element_size_mm),
         ("refinement_regions", pvDictArr x.refinement_regions),
         ("element_order", .int x.element_order)]

/-- Source: `MeshSettings.model_validate`. -/
def MeshSettings.model_validate (v : PyValue) : Option MeshSettings := do
  let kvs ← pvDict? v
  let sz ← reqField kvs "element_size_mm" pvRat?
  let rr ← defField kvs "refinement_regions" pvDictArr? []
  let o ← defField kvs "element_order" pvInt? 1
  let m : MeshSettings := ⟨sz, rr, o⟩
  if m.validationErrors.isEmpty then some m else none

/-- Source: `ComponentIntent.model_dump`. -/
def ComponentIntent.model_dump (x : ComponentIntent) : PyValue :=
  .dict [("schema_version", .str x.schema_version),
         ("component_id", .str x.component_id),
         ("parent_program_id", .str x.parent_program_id),
         ("parent_assembly_id", pvOptStr x.parent_assembly_id),
         ("component_name", .str x.component_name),
         ("functional_description", .str x.functional_description),
         ("interface_contracts", pvStrArr x.interface_contracts),
         ("material_preference", pvOptStr x.material_preference),
         ("manufacturing_process", pvOptStr x.manufacturing_process),
         ("design_constraints", .dict x.design_constraints),
         ("reference_requirements", pvStrArr x.reference_requirements),
         ("revision", .int x.revision),
         ("is_frozen", .bool x.is_frozen),
         ("created_at", .str x.created_at),
         ("updated_at", .str x.updated_at)]

/-- The identity/intent fields of a `ComponentIntent` payload (first half of
`model_validate`, split to keep elaboration tractable). -/
def ComponentIntent.parseIdentity (kvs : List (String × PyValue)) :
    Option (String × String × String × Option String × String × String) := do
  let sv ← defField kvs "schema_version" pvStr? "1.0.0"
  let cid ← reqField kvs "component_id" pvStr?
  let prog ← reqField kvs "parent_program_id" pvStr?
  let pasm ← defField kvs "parent_assembly_id" pvOptStr? none
  let nm ← reqField kvs "component_name" pvStr?
  let fd ← reqField kvs "functional_description" pvStr?
  some (sv, cid, prog, pasm, nm, fd)

/-- The constraint/lifecycle fields of a `ComponentIntent` payload (second
half of `model_validate`). -/
def ComponentIntent.parseRest (kvs : List (String × PyValue)) :
    Option (List String × Option String × Option String ×
      List (String × PyValue) × List String × Int × Bool × String × String) := do
  let ics ← defField kvs "interface_contracts" pvStrList? []
  let mp ← defField kvs "material_preference" pvOptStr? none
  let mfg ← defField kvs "manufacturing_process" pvOptStr? none
  let dc ← defField kvs "design_constraints" pvDict? []
  let rr ← defField kvs "reference_requirements" pvStrList? []
  let rev ← defField kvs "revision" pvInt? 1
  let fz ← defField kvs "is_frozen" pvBool? false
  let ca ← defField kvs "created_at" pvStr? ""
  let ua ← defField kvs "updated_at" pvStr? ""
  some (ics, mp, mfg, dc, rr, rev, fz, ca, ua)

/-- Source: `ComponentIntent.model_validate`. -/
def ComponentIntent.model_validate (v : PyValue) : Option ComponentIntent := do
  let kvs ← pvDict? v
  let (sv, cid, prog, pasm, nm, fd) ← ComponentIntent.parseIdentity kvs
  let (ics, mp, mfg, dc, rr, rev, fz, ca, ua) ← ComponentIntent.parseRest kvs
  let x : ComponentIntent :=
    ⟨sv, cid, prog, pasm, nm, fd, ics, mp, mfg, dc, rr, rev, fz, ca, ua⟩
  if x.validationErrors.isEmpty then some x else none

/-- Source: `ComponentPackage.model_dump`. -/
def ComponentPackage.model_dump (x : ComponentPackage) : PyValue :=
  .dict [("schema_version", .str x.schema_version),
         ("component_id", .str x.component_id),
         ("parent_program_id", .str x.parent_program_id),
         ("artifact_uris", pvStrDict x.artifact_uris),
         ("semantic_tags", pvStrDict x.semantic_tags),
         ("design_parameters", .dict x.design_parameters),
         ("validation_status", .str x.validation_status),
         ("validation_messages", pvStrArr x.validation_messages),
         ("interface_compliance", pvBoolDict x.interface_compliance),
         ("design_notes", pvOptStr x.design_notes),
         ("generated_at", .str x.generated_at)]

/-- The identity/artifact fields of a `ComponentPackage` payload (first half
of `model_validate`). -/
def ComponentPackage.parseIdentity (kvs : List (String × PyValue)) :
    Option (String × String × String × List (String × String) ×
      List (String × String) × List (String × PyValue)) := do
  let sv ← defField kvs "schema_version" pvStr? "1.0.0"
  let cid ← reqField kvs "component_id" pvStr?
  let prog ← reqField kvs "parent_program_id" pvStr?
  let uris ← reqField kvs "artifact_uris" pvStrDict?
  let tags ← defField kvs "semantic_tags" pvStrDict? []
  let dp ← defField kvs "design_parameters" pvDict? []
  some (sv, cid, prog, uris, tags, dp)

/-- The validation/metadata fields of a `ComponentPackage` payload (second
half of `model_validate`). -/
def ComponentPackage.parseRest (kvs : List (String × PyValue)) :
    Option (String × List String × List (String × Bool) × Option String × String) := do
  let vs ← reqField kvs "validation_status" pvStr?
  let vm ← defField kvs "validation_messages" pvStrList? []
  let ic ← defField kvs "interface_compliance" pvBoolDict? []
  let dn ← defField kvs "design_notes" pvOptStr? none
  let ga ← defField kvs "generated_at" pvStr? ""
  some (vs, vm, ic, dn, ga)

/-- Source: `ComponentPackage.model_validate`. -/
def ComponentPackage.model_validate (v : PyValue) : Option ComponentPackage := do
  let kvs ← pvDict? v
  let (sv, cid, prog, uris, tags, dp) ← ComponentPackage.parseIdentity kvs
  let (vs, vm, ic, dn, ga) ← ComponentPackage.parseRest kvs
  some ⟨sv, cid, prog, uris, tags, dp, vs, vm, ic, dn, ga⟩

/-- Source: `AssemblyIntent.model_dump`. -/
def AssemblyIntent.model_dump (x : AssemblyIntent) : PyValue :=
  .dict [("schema_version", .str x.schema_version),
         ("assembly_id", .str x.assembly_id),
         ("parent_program_id", .str x.parent_program_id),
         ("parent_assembly_id", pvOptStr x.parent_assembly_id),
         ("assembly_name", .str x.assembly_name),
         ("functional_description", .str x.functional_description),
         ("child_components", pvStrArr x.child_components),
         ("child_assemblies", pvStrArr x.child_assemblies),
         ("interface_contracts", pvStrArr x.interface_contracts),
         ("mating_instructions", pvOptStr x.mating_instructions),
         ("assembly_constraints", .dict x.assembly_constraints),
         ("reference_requirements", pvStrArr x.reference_requirements),
         ("revision", .int x.revision),
         ("is_frozen", .bool x.is_frozen),
         ("created_at", .str x.created_at),
         ("updated_at", .str x.updated_at)]

/-- The identity/intent fields of an `AssemblyIntent` payload (first third
of `model_validate`). -/
def AssemblyIntent.parseIdentity (kvs : List (String × PyValue)) :
    Option (String × String × String × Option String × String × String) := do
  let sv ← defField kvs "schema_version" pvStr? "1.0.0"
  let aid ← reqField kvs "assembly_id" pvStr?
  let prog ← reqField kvs "parent_program_id" pvStr?
  let pasm ← defField kvs "parent_assembly_id" pvOptStr? none
  let nm ← reqField kvs "assembly_name" pvStr?
  let fd ← reqField kvs "functional_description" pvStr?
  some (sv, aid, prog, pasm, nm, fd)

/-- The structure/mating fields of an `AssemblyIntent` payload (second third
of `model_validate`). -/
def AssemblyIntent.parseStructure (kvs : List (String × PyValue)) :
    Option (List String × List String × List String × Option String ×
      List (String × PyValue) × List String) := do
  let cc ← defField kvs "child_components" pvStrList? []
  let ca ← defField kvs "child_assemblies" pvStrList? []
  let ics ← defField kvs "interface_contracts" pvStrList? []
  let mi ← defField kvs "mating_instructions" pvOptStr? none
  let ac ← defField kvs "assembly_constraints" pvDict? []
  let rr ← defField kvs "reference_requirements" pvStrList? []
  some (cc, ca, ics, mi, ac, rr)

/-- The lifecycle fields of an `AssemblyIntent` payload (last third of
`model_validate`). -/
def AssemblyIntent.parseLifecycle (kvs : List (String × PyValue)) :
    Option (Int × Bool × String × String) := do
  let rev ← defField kvs "revision" pvInt? 1
  let fz ← defField kvs "is_frozen" pvBool? false
  let cat ← defField kvs "created_at" pvStr? ""
  let uat ← defField kvs "updated_at" pvStr? ""
  some (rev, fz, cat, uat)

/-- Source: `AssemblyIntent.model_validate`. -/
def AssemblyIntent.model_validate (v : PyValue) : Option AssemblyIntent := do
  let kvs ← pvDict? v
  let (sv, aid, prog, pasm, nm, fd) ← AssemblyIntent.parseIdentity kvs
  let (cc, ca, ics, mi, ac, rr) ← AssemblyIntent.parseStructure kvs
  let (rev, fz, cat, uat) ← AssemblyIntent.parseLifecycle kvs
  let x : AssemblyIntent :=
    ⟨sv, aid, prog, pasm, nm, fd, cc, ca, ics, mi, ac, rr, rev, fz, cat, uat⟩
  if x.validationErrors.isEmpty then some x else none

/-- Source: `AssemblyPackage.model_dump`. -/
def AssemblyPackage.model_dump (x : AssemblyPackage) : PyValue :=
  .dict [("schema_version", .str x.schema_version),
         ("assembly_id", .str x.assembly_id),
         ("parent_program_id", .str x.parent_program_id),
         ("artifact_uris", pvStrDict x.artifact_uris),
         ("bom", pvDictArr x.bom),
         ("mating_relationships", pvDictArr x.mating_relationships),
         ("validation_status", .str x.validation_status),
         ("interference_check", .dict x.interference_check),
         ("clearance_violations", pvStrArr x.clearance_violations),
         ("envelope_compliance", pvOptBool x.envelope_compliance),
         ("assembly_notes", pvOptStr x.assembly_notes),
         ("generated_at", .str x.generated_at)]

/-- The identity/structure fields of an `AssemblyPackage` payload (first
half of `model_validate`). -/
def AssemblyPackage.parseIdentity (kvs : List (String × PyValue)) :
    Option (String × String × String × List (String × String) ×
      List (List (String × PyValue)) × List (List (String × PyValue))) := do
  let sv ← defField kvs "schema_version" pvStr? "1.0.0"
  let aid ← reqField kvs "assembly_id" pvStr?
  let prog ← reqField kvs "parent_program_id" pvStr?
  let uris ← reqField kvs "artifact_uris" pvStrDict?
  let bom ← defField kvs "bom" pvDictArr? []
  let mr ← defField kvs "mating_relationships" pvDictArr? []
  some (sv, aid, prog, uris, bom, mr)

/-- The validation/metadata fields of an `AssemblyPackage` payload (second
half of `model_validate`). -/
def AssemblyPackage.parseRest (kvs : List (String × PyValue)) :
    Option (String × List (String × PyValue) × List String × Option Bool ×
      Option String × String) := do
  let vs ← reqField kvs "validation_status" pvStr?
  let ifc ← defField kvs "interference_check" pvDict? []
  let cv ← defField kvs "clearance_violations" pvStrList? []
  let ec ← defField kvs "envelope_compliance" pvOptBool? none
  let an ← defField kvs "assembly_notes" pvOptStr? none
  let ga ← defField kvs "generated_at" pvStr? ""
  some (vs, ifc, cv, ec, an, ga)

/-- Source: `AssemblyPackage.model_validate`. -/
def AssemblyPackage.model_validate (v : PyValue) : Option AssemblyPackage := do
  let kvs ← pvDict? v
  let (sv, aid, prog, uris, bom, mr) ← AssemblyPackage.parseIdentity kvs
  let (vs, ifc, cv, ec, an, ga) ← AssemblyPackage.parseRest kvs
  some ⟨sv, aid, prog, uris, bom, mr, vs, ifc, cv, ec, an, ga⟩

/-- Source: `SimulationRequest.model_dump`. -/
def SimulationRequest.model_dump (x : SimulationRequest) : PyValue :=
  .dict [("schema_version", .str x.schema_version),
         ("simulation_id", .str x.simulation_id),
         ("component_id", .str x.component_id),
         ("parent_program_id", .str x.parent_program_id),
         ("artifact_uri", .str x.artifact_uri),
         ("simulation_type", .str x.simulation_type.value),
         ("boundary_conditions", .arr (x.boundary_conditions.map BoundaryCondition.model_dump)),
         ("loads", .arr (x.loads.map Load.model_dump)),
         ("material_properties", x.material_properties.model_dump),
         ("mesh_settings", x.mesh_settings.model_dump),
         ("analysis_settings", .dict x.analysis_settings)]

/-- The identity fields of a `SimulationRequest` payload (first half of
`model_validate`). -/
def SimulationRequest.parseIdentity (kvs : List (String × PyValue)) :
    Option (String × String × String × String × String × SimulationType) := do
  let sv ← defField kvs "schema_version" pvStr? "1.0.0"
  let sid ← reqField kvs "simulation_id" pvStr?
  let cid ← reqField kvs "component_id" pvStr?
  let prog ← reqField kvs "parent_program_id" pvStr?
  let uri ← reqField kvs "artifact_uri" pvStr?
  let st ← reqField kvs "simulation_type" (fun y => (pvStr? y).bind SimulationType.ofValue?)
  some (sv, sid, cid, prog, uri, st)

/-- The physics fields of a `SimulationRequest` payload (second half of
`model_validate`): the nested models re-validate recursively. -/
def SimulationRequest.parsePhysics (kvs : List (String × PyValue)) :
    Option (List BoundaryCondition × List Load × MaterialProperties ×
      MeshSettings × List (String × PyValue)) := do
  let bcs ← defField kvs "boundary_conditions"
    (pvListOf? BoundaryCondition.model_validate) []
  let lds ← defField kvs "loads" (pvListOf? Load.model_validate) []
  let mat ← reqField kvs "material_properties" MaterialProperties.model_validate
  let mesh ← reqField kvs "mesh_settings" MeshSettings.model_validate
  let as_ ← defField kvs "analysis_settings" pvDict? []
  some (bcs, lds, mat, mesh, as_)

/-- Source: `SimulationRequest.model_validate`. -/
def SimulationRequest.model_validate (v : PyValue) : Option SimulationRequest := do
  let kvs ← pvDict? v
  let (sv, sid, cid, prog, uri, st) ← SimulationRequest.parseIdentity kvs
  let (bcs, lds, mat, mesh, as_) ← SimulationRequest.parsePhysics kvs
  some ⟨sv, sid, cid, prog, uri, st, bcs, lds, mat, mesh, as_⟩

/-- Source: `SimulationReport.model_dump`. -/
def SimulationReport.model_dump (x : SimulationReport) : PyValue :=
  .dict [("schema_version", .str x.schema_version),
         ("report_id", .str x.report_id),
         ("component_id", .str x.component_id),
         ("parent_program_id", .str x.parent_program_id),
         ("simulation_type", .str x.simulation_type.value),
         ("status", .str x.status.value),
         ("max_stress_mpa", pvOptRat x.max_stress_mpa),
         ("max_displacement_mm", pvOptRat x.max_displacement_mm),
         ("safety_factor", pvOptRat x.safety_factor),
         ("pass_fail", pvOptBool x.pass_fail),
         ("summary", .str x.summary),
         ("artifact_refs", pvStrArr x.artifact_refs),
         ("generated_at", .str x.generated_at)]

/-- The identity fields of a `SimulationReport` payload (first half of
`model_validate`). -/
def SimulationReport.parseIdentity (kvs : List (String × PyValue)) :
    Option (String × String × String × String × SimulationType × SimulationStatus) := do
  let sv ← defField kvs "schema_version" pvStr? "1.0.0"
  let rid ← reqField kvs "report_id" pvStr?
  let cid ← reqField kvs "component_id" pvStr?
  let prog ← reqField kvs "parent_program_id" pvStr?
  let st ← reqField kvs "simulation_type" (fun y => (pvStr? y).bind SimulationType.ofValue?)
  let stat ← reqField kvs "status" (fun y => (pvStr? y).bind SimulationStatus.ofValue?)
  some (sv, rid, cid, prog, st, stat)

/-- The results fields of a `SimulationReport` payload (second half of
`model_validate`). -/
def SimulationReport.parseResults (kvs : List (String × PyValue)) :
    Option (Option ℚ × Option ℚ × Option ℚ × Option Bool × String ×
      List String × String) := do
  let ms ← defField kvs "max_stress_mpa" pvOptRat? none
  let md ← defField kvs "max_displacement_mm" pvOptRat? none
  let sf ← defField kvs "safety_factor" pvOptRat? none
  let pf ← defField kvs "pass_fail" pvOptBool? none
  let sm ← defField kvs "summary" pvStr? ""
  let ar ← defField kvs "artifact_refs" pvStrList? []
  let ga ← defField kvs "generated_at" pvStr? ""
  some (ms, md, sf, pf, sm, ar, ga)

/-- Source: `SimulationReport.model_validate`. -/
def SimulationReport.model_validate (v : PyValue) : Option SimulationReport := do
  let kvs ← pvDict? v
  let (sv, rid, cid, prog, st, stat) ← SimulationReport.parseIdentity kvs
  let (ms, md, sf, pf, sm, ar, ga) ← SimulationReport.parseResults kvs
  some ⟨sv, rid, cid, prog, st, stat, ms, md, sf, pf, sm, ar, ga⟩

/-- Does a parsed prompt file have the required shape: a mapping with both a
`metadata` and a `template` entry (the checks of prompt_manager.py lines
142-149)? -/
def hasPromptShape : PyValue → Bool
  | .dict kvs => (List.lookup "metadata" kvs).isSome && (List.lookup "template" kvs).isSome
  | _ => false

/-! ### Concrete fixtures used by witnesses and counterexamples -/

/-- A prompts directory with one well-formed template under `agents/lme/`. -/
def fsRender : FS :=
  ⟨[(["agents", "lme", "clarify.yaml"],
     some (.dict [("metadata", .dict [("prompt_id", .str "lme.clarify.v1"),
                                      ("version", .str "1.0.0")]),
                  ("template", .str "Design: \x7b\x7b intent \x7d\x7d")]))]⟩

/-- The template stored in `fsRender`, as `load_prompt` returns it. -/
def ptClarify : PromptTemplate :=
  ⟨⟨"lme.clarify.v1", "1.0.0", "", none, none, []⟩,
   "Design: \x7b\x7b intent \x7d\x7d"⟩

/-- A prompts directory in which two distinct files (one under `agents/`,
one under `base/`) declare the same `prompt_id`. -/
def fsDup : FS :=
  ⟨[(["agents", "lme", "a.yaml"],
     some (.dict [("metadata", .dict [("prompt_id", .str "lme.x.v1"),
                                      ("version", .str "1.0.0")]),
                  ("template", .str "T")])),
    (["base", "a.yaml"],
     some (.dict [("metadata", .dict [("prompt_id", .str "lme.x.v1"),
                                      ("version", .str "1.0.0")]),
                  ("template", .str "U")]))]⟩

/-- A prompts directory whose only template file does not parse as YAML. -/
def fsUnparsable : FS := ⟨[(["agents", "lme", "clarify.yaml"], none)]⟩

/-- A prompts directory whose template file declares `lme.other.v1` under
the lookup key for `lme.clarify.v1`. -/
def fsMismatch : FS :=
  ⟨[(["agents", "lme", "clarify.yaml"],
     some (.dict [("metadata", .dict [("prompt_id", .str "lme.other.v1"),
                                      ("version", .str "1.0.0")]),
                  ("template", .str "T")]))]⟩

/-- A frozen interface contract. -/
def icFrozen : InterfaceContract :=
  ⟨"1.0.0", "iface_motor_holes", "prog_x", "comp_bracket", "motor_nema17",
   .bolt_pattern, "NEMA 17 motor bolt pattern", none,
   [("hole_count", .int 4)], some "pm 0.1mm", true, some "t0", "t0"⟩

/-- A valid `ComponentIntent`. -/
def ciEx : ComponentIntent :=
  ⟨"1.0.0", "comp_bracket", "prog_x", none, "Bracket", "Mounts motor to rail",
   ["iface_1"], some "aluminum 6061", none, [("max_mass_kg", .num (1/10))],
   [], 1, false, "t0", "t0"⟩

/-- A valid `ComponentPackage`. -/
def cpEx : ComponentPackage :=
  ⟨"1.0.0", "comp_bracket", "prog_x", [("step", "a.step")], [("datum_a", "primary datum")],
   [("base_thickness_mm", .num 5)], "passed", ["ok"], [("iface_1", true)],
   some "notes", "t0"⟩

/-- A valid `AssemblyIntent`. -/
def aiEx : AssemblyIntent :=
  ⟨"1.0.0", "asm_mount", "prog_x", none, "Mount", "Holds the motor assembly",
   ["comp_bracket"], [], ["iface_1"], some "bolt together", [], [], 1, false,
   "t0", "t0"⟩

/-- A valid `AssemblyPackage`. -/
def apEx : AssemblyPackage :=
  ⟨"1.0.0", "asm_mount", "prog_x", [("step", "a.step")],
   [[("component_id", .str "comp_bracket"), ("quantity", .int 1)]],
   [], "passed", [("interferences_found", .int 0)], [], some true, none, "t0"⟩

/-- A valid `MaterialProperties`. -/
def mpEx : MaterialProperties :=
  ⟨"6061-T6", 69, 33/100, 2700, some 276, none, none, none⟩

/-- A valid `MeshSettings`. -/
def meshEx : MeshSettings := ⟨2, [], 1⟩

/-- A valid `SimulationRequest`. -/
def srEx : SimulationRequest :=
  ⟨"1.0.0", "sim_001", "comp_bracket", "prog_x", "a.step", .static_stress,
   [⟨.fixed, [("region_type", .str "planar_face")], [("tolerance", 1/10)]⟩],
   [⟨.force, 100, some [0, 0, -1], [("region_type", .str "point")]⟩],
   mpEx, meshEx, [("solver", .str "calculix")]⟩

/-- A valid `SimulationReport`. -/
def repEx : SimulationReport :=
  ⟨"1.0.0", "sim_001", "comp_bracket", "prog_x", .static_stress, .success,
   some (452/10), some (8/100), some (53/10), some true, "ok", ["stress.vtk"], "t0"⟩

/-! ### Lemmas: the Python string order -/

theorem charsLe_total : ∀ as bs : List Char,
    charsLe as bs = true ∨ charsLe bs as = true := by
  intro as
  induction as with
  | nil => intro bs; left; rfl
  | cons a as ih =>
    intro bs
    cases bs with
    | nil => right; rfl
    | cons b bs =>
      simp only [charsLe]
      by_cases hab : a = b
      · subst hab
        simpa using ih bs
      · rcases lt_trichotomy a b with h | h | h
        · left; simp [hab, h]
        · exact absurd h hab
        · right; simp [ne_of_lt h, h]

theorem charsLe_trans : ∀ as bs cs : List Char,
    charsLe as bs = true → charsLe bs cs = true → charsLe as cs = true := by
  intro as
  induction as with
  | nil => intro bs cs _ _; rfl
  | cons a as ih =>
    intro bs cs h1 h2
    cases bs with
    | nil => simp [charsLe] at h1
    | cons b bs =>
      cases cs with
      | nil => simp [charsLe] at h2
      | cons c cs =>
        simp only [charsLe] at h1 h2 ⊢
        by_cases hab : a = b
        · subst hab
          simp only [if_pos rfl] at h1
          by_cases hac : a = c
          · subst hac
            simp only [if_pos rfl] at h2 ⊢
            exact ih bs cs h1 h2
          · simp only [if_neg hac] at h2 ⊢
            exact h2
        · simp only [if_neg hab, decide_eq_true_eq] at h1
          by_cases hbc : b = c
          · subst hbc
            simp [fun h => hab h, h1]
          · simp only [if_neg hbc, decide_eq_true_eq] at h2
            have hac : a < c := lt_trans h1 h2
            simp [ne_of_lt hac, hac]

instance : IsTotal String pyStrLE :=
  ⟨fun a b => by
    unfold pyStrLE strLe
    exact charsLe_total a.data b.data⟩

instance : IsTrans String pyStrLE :=
  ⟨fun a b c h1 h2 => by
    unfold pyStrLE strLe at h1 h2 ⊢
    exact charsLe_trans a.data b.data c.data h1 h2⟩

/-! ### Lemmas: the load path of `load_prompt` -/

/-- When the cache is bypassed or cannot hit, `load_prompt` runs the
uncached path. -/
theorem load_prompt_eq_uncached (fs : FS) (cache : Cache) (pid : String)
    (uc : Bool) (h : uc = false ∨ List.lookup pid cache = none) :
    load_prompt fs cache pid uc = loadUncached fs cache pid := by
  rcases h with rfl | h
  · rfl
  · cases uc
    · rfl
    · unfold load_prompt
      rw [h]

/-- A cache hit returns the cached template unchanged, touching nothing
else. -/
theorem load_prompt_cacheHit (fs : FS) (cache : Cache) (pid : String)
    (t : PromptTemplate) (h : List.lookup pid cache = some t) :
    load_prompt fs cache pid true = .ok (t, cache) := by
  unfold load_prompt
  rw [h]

/-- A successful file parse returns the cache extended at `prompt_id`
(the write at prompt_manager.py line 164). -/
theorem parseLoadedFile_ok_cache (cache : Cache) (pid : String)
    (path : FilePath') (content : Option PyValue)
    (t : PromptTemplate) (c' : Cache)
    (h : parseLoadedFile cache pid path content = .ok (t, c')) :
    c' = (pid, t) :: cache := by
  unfold parseLoadedFile at h
  repeat' split at h
  all_goals simp_all
  all_goals obtain ⟨rfl, rfl⟩ := h
  all_goals rfl

/-- A successful uncached load returns the cache extended at `prompt_id`. -/
theorem loadUncached_ok_cache (fs : FS) (cache : Cache) (pid : String)
    (t : PromptTemplate) (c' : Cache)
    (h : loadUncached fs cache pid = .ok (t, c')) :
    c' = (pid, t) :: cache := by
  unfold loadUncached loadFromSearch at h
  split at h
  · simp at h
  · cases hres : resolveContent fs (promptSearchPaths
        (promptCategory (pySplit pid '.')) (promptName (pySplit pid '.'))) with
    | none =>
      simp only [hres] at h
      exact Except.noConfusion h
    | some pc =>
      obtain ⟨path, content⟩ := pc
      simp only [hres] at h
      exact parseLoadedFile_ok_cache cache pid path content t c' h

/-- Any successful `load_prompt` leaves the returned template in the
returned cache under `prompt_id`. -/
theorem load_prompt_ok_lookup (fs : FS) (cache : Cache) (pid : String)
    (uc : Bool) (t : PromptTemplate) (c' : Cache)
    (h : load_prompt fs cache pid uc = .ok (t, c')) :
    List.lookup pid c' = some t := by
  unfold load_prompt at h
  split at h
  · next heq =>
    simp only [Except.ok.injEq, Prod.mk.injEq] at h
    obtain ⟨rfl, rfl⟩ := h
    exact heq
  · have := loadUncached_ok_cache fs cache pid t c' h
    subst this
    simp [List.lookup]

/-- One step of the search loop: an existing path wins immediately, a
missing one is skipped. -/
theorem resolveContent_cons (fs : FS) (p : FilePath') (rest : List FilePath') :
    resolveContent fs (p :: rest) =
      if fs.pathExists p then (fs.read p).map ((p, ·))
      else resolveContent fs rest := by
  have hstep : resolveContent fs (p :: rest) =
      match fs.read p with
      | some c => some (p, c)
      | none => resolveContent fs rest := rfl
  rw [hstep]
  unfold FS.pathExists
  cases h : fs.read p <;> simp [h]

/-! ### Claims C5 and C10: caching behaviour -/

/-- C5: for every prompt_id that resolves successfully, a second
`load_prompt` with `use_cache = true` against the returned cache returns the
identical cached pair, independently of the filesystem (so the file is not
re-read and no modification-time check exists); a cache hit likewise never
consults the filesystem; `clear_cache` empties the cache, after which the
next load runs the full uncached read path again. -/
theorem claim_C5 :
    (∀ (fs : FS) (cache : Cache) (pid : String) (t : PromptTemplate) (c' : Cache),
       load_prompt fs cache pid true = .ok (t, c') →
       ∀ fs₂ : FS, load_prompt fs₂ c' pid true = .ok (t, c')) ∧
    (∀ (fs fs₂ : FS) (cache : Cache) (pid : String) (t : PromptTemplate),
       List.lookup pid cache = some t →
       load_prompt fs cache pid true = .ok (t, cache) ∧
       load_prompt fs₂ cache pid true = .ok (t, cache)) ∧
    (∀ cache : Cache, clear_cache cache = []) ∧
    (∀ (fs : FS) (cache : Cache) (pid : String),
       load_prompt fs (clear_cache cache) pid true = loadUncached fs [] pid) := by
  refine ⟨?_, ?_, ?_, ?_⟩
  · intro fs cache pid t c' h fs₂
    exact load_prompt_cacheHit fs₂ c' pid t (load_prompt_ok_lookup fs cache pid true t c' h)
  · intro fs fs₂ cache pid t h
    exact ⟨load_prompt_cacheHit fs cache pid t h, load_prompt_cacheHit fs₂ cache pid t h⟩
  · intro cache; rfl
  · intro fs cache pid
    exact load_prompt_eq_uncached fs [] pid true (Or.inr rfl)

/-- Witness for C5 at a concrete prompts directory: loading
`lme.clarify.v1` once caches it, and a second load from the cached state
returns the identical pair even against an empty filesystem. -/
theorem claim_C5_witness :
    load_prompt (FS.mk []) [("lme.clarify.v1", ptClarify)] "lme.clarify.v1" true
      = .ok (ptClarify, [("lme.clarify.v1", ptClarify)]) := by
  have h1 : load_prompt fsRender [] "lme.clarify.v1" true
      = .ok (ptClarify, [("lme.clarify.v1", ptClarify)]) := rfl
  exact claim_C5.1 fsRender [] "lme.clarify.v1" ptClarify
    [("lme.clarify.v1", ptClarify)] h1 (FS.mk [])

/-- C10: a successful `load_prompt` with `use_cache = false` still writes
the cache: the returned cache binds `prompt_id` at the head, and a
subsequent cached load returns exactly the value read by the bypassing
call, on any filesystem. -/
theorem claim_C10 : ∀ (fs : FS) (cache : Cache) (pid : String)
    (t : PromptTemplate) (c' : Cache),
    load_prompt fs cache pid false = .ok (t, c') →
    c' = (pid, t) :: cache ∧ List.lookup pid c' = some t ∧
    ∀ fs₂ : FS, load_prompt fs₂ c' pid true = .ok (t, c') := by
  intro fs cache pid t c' h
  have hu : loadUncached fs cache pid = .ok (t, c') := by
    rw [← load_prompt_eq_uncached fs cache pid false (Or.inl rfl)]
    exact h
  have hl := load_prompt_ok_lookup fs cache pid false t c' h
  exact ⟨loadUncached_ok_cache fs cache pid t c' hu, hl,
         fun fs₂ => load_prompt_cacheHit fs₂ c' pid t hl⟩

/-- Witness for C10: a cache-bypassing load of `lme.clarify.v1` populates
the cache, and the subsequent cached load returns that value even against a
different filesystem. -/
theorem claim_C10_witness :
    List.lookup "lme.clarify.v1" [("lme.clarify.v1", ptClarify)] = some ptClarify ∧
    load_prompt fsDup [("lme.clarify.v1", ptClarify)] "lme.clarify.v1" true
      = .ok (ptClarify, [("lme.clarify.v1", ptClarify)]) := by
  have h0 : load_prompt fsRender [] "lme.clarify.v1" false
      = .ok (ptClarify, [("lme.clarify.v1", ptClarify)]) := rfl
  have h := claim_C10 fsRender [] "lme.clarify.v1" ptClarify
    [("lme.clarify.v1", ptClarify)] h0
  exact ⟨h.2.1, h.2.2 fsDup⟩

/-! ### Claim C3: identifier splitting and the three-path search -/

/-- C3: whenever the cache cannot answer, a prompt identifier with fewer
than two dot-separated parts fails with `InvalidPromptId`; otherwise exactly
the three candidate paths `agents/<category>/<name>.yaml`,
`base/<name>.yaml`, `<category>/<name>.yaml` are searched in that order,
the first existing path wins, and if none exists the load fails with
`PromptNotFound` naming all three searched paths. -/
theorem claim_C3 : ∀ (fs : FS) (cache : Cache) (pid : String) (uc : Bool),
    (uc = false ∨ List.lookup pid cache = none) →
    ((pySplit pid '.').length < 2 →
      load_prompt fs cache pid uc = .error (.invalidPromptId pid)) ∧
    (∀ (category name : String) (p₁ p₂ p₃ : FilePath'),
      2 ≤ (pySplit pid '.').length →
      category = promptCategory (pySplit pid '.') →
      name = promptName (pySplit pid '.') →
      p₁ = ["agents", category, name ++ ".yaml"] →
      p₂ = ["base", name ++ ".yaml"] →
      p₃ = [category, name ++ ".yaml"] →
      promptSearchPaths category name = [p₁, p₂, p₃] ∧
      resolveContent fs [p₁, p₂, p₃] =
        (if fs.pathExists p₁ then (fs.read p₁).map ((p₁, ·))
         else if fs.pathExists p₂ then (fs.read p₂).map ((p₂, ·))
         else if fs.pathExists p₃ then (fs.read p₃).map ((p₃, ·))
         else none) ∧
      (resolveContent fs [p₁, p₂, p₃] = none →
        load_prompt fs cache pid uc = .error (.promptNotFound pid [p₁, p₂, p₃]))) := by
  intro fs cache pid uc hbp
  constructor
  · intro hlt
    rw [load_prompt_eq_uncached fs cache pid uc hbp]
    unfold loadUncached
    rw [if_pos hlt]
  · intro category name p₁ p₂ p₃ hlen hc hn h1 h2 h3
    subst hc hn h1 h2 h3
    refine ⟨rfl, ?_, ?_⟩
    · simp only [resolveContent_cons]
      rfl
    · intro hnone
      rw [load_prompt_eq_uncached fs cache pid uc hbp]
      unfold loadUncached
      rw [if_neg (by omega)]
      unfold loadFromSearch
      simp only [promptSearchPaths]
      rw [hnone]

/-- Witness for C3: `resolve("badid")` fails with `InvalidPromptId`, and
resolving `lme.clarify.v1` against an empty prompts directory fails with
`PromptNotFound` listing exactly the three searched paths. -/
theorem claim_C3_witness :
    load_prompt (FS.mk []) [] "badid" true = .error (.invalidPromptId "badid") ∧
    load_prompt (FS.mk []) [] "lme.clarify.v1" true =
      .error (.promptNotFound "lme.clarify.v1"
        [["agents", "lme", "clarify.yaml"], ["base", "clarify.yaml"],
         ["lme", "clarify.yaml"]]) := by
  constructor
  · exact (claim_C3 (FS.mk []) [] "badid" true (Or.inr rfl)).1 (by decide)
  · have h := (claim_C3 (FS.mk []) [] "lme.clarify.v1" true (Or.inr rfl)).2
      "lme" "clarify"
      ["agents", "lme", "clarify.yaml"] ["base", "clarify.yaml"] ["lme", "clarify.yaml"]
      (by decide) rfl rfl rfl rfl rfl
    exact h.2.2 rfl

/-! ### Claim C4: file-shape validation and prompt_id mismatch -/

/-- C4: once the search resolves a file, a file that does not parse as a
mapping containing both a `metadata` and a `template` block fails with the
`MalformedPromptFile` condition naming the resolved path; and a file whose
parsed metadata declares a `prompt_id` different from the requested one
fails with `PromptIdMismatch` instead of returning the template. -/
theorem claim_C4 : ∀ (fs : FS) (cache : Cache) (pid : String) (uc : Bool),
    (uc = false ∨ List.lookup pid cache = none) →
    2 ≤ (pySplit pid '.').length →
    ∀ (path : FilePath') (content : Option PyValue),
      resolveContent fs (promptSearchPaths (promptCategory (pySplit pid '.'))
          (promptName (pySplit pid '.'))) = some (path, content) →
      ((content = none ∨ ∃ pv, content = some pv ∧ hasPromptShape pv = false) →
        load_prompt fs cache pid uc = .error (.malformedPromptFile path)) ∧
      (∀ (kvs : List (String × PyValue)) (metaY tmplY : PyValue)
          (meta : PromptMetadata),
        content = some (.dict kvs) →
        List.lookup "metadata" kvs = some metaY →
        List.lookup "template" kvs = some tmplY →
        parseMetadata metaY = some meta →
        meta.prompt_id ≠ pid →
        load_prompt fs cache pid uc =
          .error (.promptIdMismatch pid meta.prompt_id)) := by
  intro fs cache pid uc hbp hlen path content hres
  have hload : load_prompt fs cache pid uc = parseLoadedFile cache pid path content := by
    rw [load_prompt_eq_uncached fs cache pid uc hbp]
    unfold loadUncached
    rw [if_neg (by omega)]
    unfold loadFromSearch
    rw [hres]
  constructor
  · rintro (rfl | ⟨pv, rfl, hshape⟩)
    · rw [hload]; rfl
    · rw [hload]
      cases pv with
      | dict kvs =>
        cases hm : List.lookup "metadata" kvs with
        | none => simp only [parseLoadedFile, hm]
        | some metaY =>
          cases ht : List.lookup "template" kvs with
          | none => simp only [parseLoadedFile, hm, ht]
          | some tmplY =>
            exact absurd hshape (by simp [hasPromptShape, hm, ht])
      | null => rfl
      | bool b => rfl
      | int n => rfl
      | num q => rfl
      | str s => rfl
      | arr l => rfl
  · intro kvs metaY tmplY meta hc hm ht hpm hne
    subst hc
    rw [hload]
    simp only [parseLoadedFile, hm, ht, hpm]
    rw [if_pos hne]

/-- Witness for C4 at concrete files: an unparsable
`agents/lme/clarify.yaml` makes `resolve("lme.clarify.v1")` fail with
`MalformedPromptFile`, and a file declaring `lme.other.v1` requested as
`lme.clarify.v1` fails with `PromptIdMismatch`. -/
theorem claim_C4_witness :
    load_prompt fsUnparsable [] "lme.clarify.v1" true
      = .error (.malformedPromptFile ["agents", "lme", "clarify.yaml"]) ∧
    load_prompt fsMismatch [] "lme.clarify.v1" true
      = .error (.promptIdMismatch "lme.clarify.v1" "lme.other.v1") := by
  constructor
  · exact (claim_C4 fsUnparsable [] "lme.clarify.v1" true (Or.inr rfl) (by decide)
      ["agents", "lme", "clarify.yaml"] none rfl).1 (Or.inl rfl)
  · exact (claim_C4 fsMismatch [] "lme.clarify.v1" true (Or.inr rfl) (by decide)
      ["agents", "lme", "clarify.yaml"]
      (some (.dict [("metadata", .dict [("prompt_id", .str "lme.other.v1"),
                                        ("version", .str "1.0.0")]),
                    ("template", .str "T")])) rfl).2
      [("metadata", .dict [("prompt_id", .str "lme.other.v1"),
                           ("version", .str "1.0.0")]),
       ("template", .str "T")]
      (.dict [("prompt_id", .str "lme.other.v1"), ("version", .str "1.0.0")])
      (.str "T")
      ⟨"lme.other.v1", "1.0.0", "", none, none, []⟩
      rfl rfl rfl rfl (by decide)

/-! ### Claim C6: rendering -/

/-- C6: `render_prompt` returns exactly the variable-substituted template
body stripped of leading and trailing whitespace; in particular the template
with body `Design: \x7b\x7b intent \x7d\x7d` rendered with
`intent = "bracket"` yields exactly `Design: bracket`. -/
theorem claim_C6 :
    (∀ (fs : FS) (cache : Cache) (pid : String) (ctx : List (String × String))
        (uc : Bool) (t : PromptTemplate) (c' : Cache),
      load_prompt fs cache pid uc = .ok (t, c') →
      render_prompt fs cache pid ctx uc =
        .ok (pyStrip (renderTemplate t.template ctx), c')) ∧
    pyStrip (renderTemplate "Design: \x7b\x7b intent \x7d\x7d"
      [("intent", "bracket")]) = "Design: bracket" := by
  constructor
  · intro fs cache pid ctx uc t c' h
    unfold render_prompt
    rw [h]
  · rfl

/-- Witness for C6: rendering `lme.clarify.v1` from the concrete prompts
directory with `intent = "bracket"` yields exactly `Design: bracket`. -/
theorem claim_C6_witness :
    render_prompt fsRender [] "lme.clarify.v1" [("intent", "bracket")] true
      = .ok ("Design: bracket", [("lme.clarify.v1", ptClarify)]) := by
  have h := claim_C6.1 fsRender [] "lme.clarify.v1" [("intent", "bracket")] true
    ptClarify [("lme.clarify.v1", ptClarify)] rfl
  exact h.trans (by rfl)

/-! ### Claim C1: interface-contract lifecycle -/

/-- C1: freezing a frozen contract fails with `AlreadyFrozen` (so the
timestamp is never re-stamped), every geometric mutation of a frozen
contract fails with `FrozenContractViolation`, a successful freeze starts
from an unfrozen contract and sets the flag and timestamp, and no modelled
operation ever clears `is_frozen` (the transition is one-way). -/
theorem claim_C1 :
    (∀ (c : InterfaceContract) (now : Timestamp), c.is_frozen = true →
       freezeContract c now = .error .alreadyFrozen) ∧
    (∀ (c : InterfaceContract) (v : List (String × PyValue)), c.is_frozen = true →
       setGeometricSpec c v = .error .frozenContractViolation) ∧
    (∀ (c : InterfaceContract) (v : Option CoordinateFrame), c.is_frozen = true →
       setCoordinateFrame c v = .error .frozenContractViolation) ∧
    (∀ (c : InterfaceContract) (v : Option String), c.is_frozen = true →
       setTolerance c v = .error .frozenContractViolation) ∧
    (∀ (c : InterfaceContract) (now : Timestamp) (c' : InterfaceContract),
       freezeContract c now = .ok c' →
       c.is_frozen = false ∧ c'.is_frozen = true ∧ c'.frozen_at = some now) ∧
    (∀ (c : InterfaceContract) (v : List (String × PyValue)) (c' : InterfaceContract),
       setGeometricSpec c v = .ok c' → c'.is_frozen = c.is_frozen) ∧
    (∀ (c : InterfaceContract) (v : Option CoordinateFrame) (c' : InterfaceContract),
       setCoordinateFrame c v = .ok c' → c'.is_frozen = c.is_frozen) ∧
    (∀ (c : InterfaceContract) (v : Option String) (c' : InterfaceContract),
       setTolerance c v = .ok c' → c'.is_frozen = c.is_frozen) := by
  refine ⟨?_, ?_, ?_, ?_, ?_, ?_, ?_, ?_⟩
  · intro c now h; simp [freezeContract, h]
  · intro c v h; simp [setGeometricSpec, h]
  · intro c v h; simp [setCoordinateFrame, h]
  · intro c v h; simp [setTolerance, h]
  · intro c now c' h
    unfold freezeContract at h
    split at h
    · exact Except.noConfusion h
    · next hfr =>
      injection h with h2
      subst h2
      exact ⟨by simpa using hfr, rfl, rfl⟩
  · intro c v c' h
    unfold setGeometricSpec at h
    split at h
    · exact Except.noConfusion h
    · injection h with h2; subst h2; rfl
  · intro c v c' h
    unfold setCoordinateFrame at h
    split at h
    · exact Except.noConfusion h
    · injection h with h2; subst h2; rfl
  · intro c v c' h
    unfold setTolerance at h
    split at h
    · exact Except.noConfusion h
    · injection h with h2; subst h2; rfl

/-- Witness for C1 at a concrete frozen contract. -/
theorem claim_C1_witness :
    freezeContract icFrozen "t1" = .error .alreadyFrozen ∧
    setGeometricSpec icFrozen [] = .error .frozenContractViolation ∧
    setCoordinateFrame icFrozen none = .error .frozenContractViolation ∧
    setTolerance icFrozen none = .error .frozenContractViolation :=
  ⟨claim_C1.1 icFrozen "t1" rfl,
   claim_C1.2.1 icFrozen [] rfl,
   claim_C1.2.2.1 icFrozen none rfl,
   claim_C1.2.2.2.1 icFrozen none rfl⟩

/-! ### Claim C2: prompt discovery -/

/-- Every prompt id a file contributes under a category filter carries the
category prefix. -/
theorem fileContrib_mem_isPrefixOf {c p : String} {ov : Option PyValue}
    (h : p ∈ fileContrib (some c) ov) :
    (c ++ ".").data.isPrefixOf p.data = true := by
  unfold fileContrib at h
  repeat' split at h
  all_goals simp_all

/-- C2 (amended): `list_prompts` with a category filter returns the declared
prompt ids of the scanned files under `agents/` and `base/` — one occurrence
per declaring file, duplicates not removed — sorted ascending in the Python
string order, every element carrying the `<category>.` prefix; a file whose
parse fails contributes nothing and raises nothing. -/
theorem claim_C2 : ∀ (fs : FS) (c : String),
    List.Pairwise pyStrLE (list_prompts fs (some c)) ∧
    (list_prompts fs (some c)).Perm (collectedPids fs (some c)) ∧
    (∀ p ∈ list_prompts fs (some c), (c ++ ".").data.isPrefixOf p.data = true) ∧
    (∀ path : FilePath',
      list_prompts ⟨(path, none) :: fs.files⟩ (some c) = list_prompts fs (some c)) := by
  intro fs c
  refine ⟨?_, ?_, ?_, ?_⟩
  · exact List.sorted_insertionSort pyStrLE (collectedPids fs (some c))
  · exact List.perm_insertionSort pyStrLE (collectedPids fs (some c))
  · intro p hp
    have hp' : p ∈ collectedPids fs (some c) :=
      (List.mem_insertionSort pyStrLE).mp hp
    unfold collectedPids at hp'
    rw [List.mem_flatMap] at hp'
    obtain ⟨f, _, hcontrib⟩ := hp'
    exact fileContrib_mem_isPrefixOf hcontrib
  · intro path
    unfold list_prompts collectedPids dirYamlFiles
    simp only [List.filter_cons]
    split_ifs <;> simp [fileContrib]

/-- Counterexample for C2 as frozen: two files declaring the same
`prompt_id` make `list_prompts` return it twice — duplicates are not
removed. -/
theorem claim_C2_counterexample :
    list_prompts fsDup (some "lme") = ["lme.x.v1", "lme.x.v1"] ∧
    ¬ (list_prompts fsDup (some "lme")).Nodup := by
  constructor
  · rfl
  · decide

/-- Witness for C2 (amended) at the concrete duplicate directory: the
returned ids carry the `lme.` prefix, and inserting an unparsable file
changes nothing. -/
theorem claim_C2_witness :
    ("lme" ++ ".").data.isPrefixOf ("lme.x.v1" : String).data = true ∧
    list_prompts ⟨(["agents", "zz.yaml"], none) :: fsDup.files⟩ (some "lme")
      = list_prompts fsDup (some "lme") :=
  ⟨(claim_C2 fsDup "lme").2.2.1 "lme.x.v1" (by decide),
   (claim_C2 fsDup "lme").2.2.2 ["agents", "zz.yaml"]⟩

/-! ### Claim C7: eager construction-time validation -/

/-- C7: constructing with a required field missing, or with a numeric field
outside its declared bound — Young's modulus > 0, Poisson ratio in
[0, 0.5], density > 0, element_order in {1, 2}, functional_description of
at least 10 characters, coordinate-frame axes of exactly 3 components —
fails at construction with a `SchemaValidationError` naming the offending
field. -/
theorem claim_C7 :
    (mkMaterialProperties none none none none none none none none
       = .error ["material_name", "youngs_modulus_gpa", "poissons_ratio",
                 "density_kg_m3"]) ∧
    (∀ (n : String) (y p d : ℚ), y ≤ 0 → 0 ≤ p → p ≤ 1/2 → 0 < d →
       mkMaterialProperties (some n) (some y) (some p) (some d) none none none none
         = .error ["youngs_modulus_gpa"]) ∧
    (∀ (n : String) (y p d : ℚ), 0 < y → (p < 0 ∨ 1/2 < p) → 0 < d →
       mkMaterialProperties (some n) (some y) (some p) (some d) none none none none
         = .error ["poissons_ratio"]) ∧
    (∀ (n : String) (y p d : ℚ), 0 < y → 0 ≤ p → p ≤ 1/2 → d ≤ 0 →
       mkMaterialProperties (some n) (some y) (some p) (some d) none none none none
         = .error ["density_kg_m3"]) ∧
    (∀ (sz : ℚ) (o : Int), 0 < sz → (o < 1 ∨ 2 < o) →
       mkMeshSettings (some sz) [] (some o) = .error ["element_order"]) ∧
    (∀ (cid prog nm fd : String), 1 ≤ nm.length → fd.length < 10 →
       mkComponentIntent (some cid) (some prog) none (some nm) (some fd)
         [] none none [] [] none none "t0"
         = .error ["functional_description"]) ∧
    (∀ (o xs ys zs : List ℚ) (rd : String), o.length = 3 → xs.length ≠ 3 →
       ys.length = 3 → zs.length = 3 →
       mkCoordinateFrame (some o) (some xs) (some ys) (some zs) (some rd)
         = .error ["x_axis"]) := by
  refine ⟨rfl, ?_, ?_, ?_, ?_, ?_, ?_⟩
  · intro n y p d hy hp1 hp2 hd
    have hp2' : p ≤ (2⁻¹ : ℚ) := by simpa [one_div] using hp2
    simp [mkMaterialProperties, reqErr, noCheck, ratGt0Err, optRatGt0Err,
      not_lt.mpr hy, hp1, hp2', hd]
  · intro n y p d hy hp hd
    have hnp : ¬(0 ≤ p ∧ p ≤ (2⁻¹ : ℚ)) := by
      rcases hp with h | h
      · exact fun hand => absurd hand.1 (not_le.mpr h)
      · exact fun hand => absurd hand.2 (not_le.mpr (by simpa [one_div] using h))
    simp [mkMaterialProperties, reqErr, noCheck, ratGt0Err, optRatGt0Err,
      hy, hnp, hd]
  · intro n y p d hy hp1 hp2 hd
    have hp2' : p ≤ (2⁻¹ : ℚ) := by simpa [one_div] using hp2
    simp [mkMaterialProperties, reqErr, noCheck, ratGt0Err, optRatGt0Err,
      hy, hp1, hp2', not_lt.mpr hd]
  · intro sz o hsz ho
    have hno : ¬(1 ≤ o ∧ o ≤ 2) := by
      rcases ho with h | h
      · exact fun hand => absurd hand.1 (not_le.mpr h)
      · exact fun hand => absurd hand.2 (not_le.mpr h)
    simp [mkMeshSettings, reqErr, ratGt0Err, hsz, hno]
  · intro cid prog nm fd hnm hfd
    simp [mkComponentIntent, reqErr, noCheck, minLenErr, hnm, not_le.mpr hfd]
  · intro o xs ys zs rd ho hx hy hz
    simp [mkCoordinateFrame, reqErr, noCheck, len3Err, ho, hx, hy, hz]

/-- Witness for C7 at concrete out-of-bound inputs. -/
theorem claim_C7_witness :
    mkMaterialProperties (some "Al") (some (-1)) (some 0) (some 1)
      none none none none = .error ["youngs_modulus_gpa"] ∧
    mkMaterialProperties (some "Al") (some 1) (some 1) (some 1)
      none none none none = .error ["poissons_ratio"] ∧
    mkMaterialProperties (some "Al") (some 1) (some 0) (some 0)
      none none none none = .error ["density_kg_m3"] ∧
    mkMeshSettings (some 1) [] (some 3) = .error ["element_order"] ∧
    mkComponentIntent (some "comp_x") (some "prog_x") none (some "Bracket")
      (some "short") [] none none [] [] none none "t0"
      = .error ["functional_description"] ∧
    mkCoordinateFrame (some [0, 0, 0]) (some [1, 0]) (some [0, 1, 0])
      (some [0, 0, 1]) (some "top face") = .error ["x_axis"] :=
  ⟨claim_C7.2.1 "Al" (-1) 0 1 (by norm_num) (by norm_num) (by norm_num) (by norm_num),
   claim_C7.2.2.1 "Al" 1 1 1 (by norm_num) (Or.inr (by norm_num)) (by norm_num),
   claim_C7.2.2.2.1 "Al" 1 0 0 (by norm_num) (by norm_num) (by norm_num) (by norm_num),
   claim_C7.2.2.2.2.1 1 3 (by norm_num) (Or.inr (by norm_num)),
   claim_C7.2.2.2.2.2.1 "comp_x" "prog_x" "Bracket" "short" (by decide) (by decide),
   claim_C7.2.2.2.2.2.2 [0, 0, 0] [1, 0] [0, 1, 0] [0, 0, 1] "top face"
     (by decide) (by decide) (by decide) (by decide)⟩

/-! ### Claim C9: artifact_uris on ComponentPackage -/

/-- Counterexample for C9 as frozen: constructing a `ComponentPackage` with
the empty `artifact_uris` mapping succeeds — the source declares the field
required but places no non-empty bound on it. -/
theorem claim_C9_counterexample :
    mkComponentPackage (some "comp_x") (some "prog_x") (some []) [] []
      (some "passed") [] [] none "t0"
      = .ok ⟨"1.0.0", "comp_x", "prog_x", [], [], [], "passed", [], [], none, "t0"⟩ :=
  rfl

/-- C9 (amended): `artifact_uris` is required — omitting it fails with a
`SchemaValidationError` naming `artifact_uris` — but its contents are
unconstrained: construction succeeds with any mapping, the empty one
included. -/
theorem claim_C9 :
    (∀ (cid prog : Option String) (st : List (String × String))
       (dp : List (String × PyValue)) (vs : Option String) (vm : List String)
       (ic : List (String × Bool)) (dn : Option String) (now : Timestamp),
       ∃ errs, mkComponentPackage cid prog none st dp vs vm ic dn now
           = .error errs ∧ "artifact_uris" ∈ errs) ∧
    (∀ (cid prog : String) (au : List (String × String))
       (st : List (String × String)) (dp : List (String × PyValue)) (vs : String)
       (vm : List String) (ic : List (String × Bool)) (dn : Option String)
       (now : Timestamp),
       mkComponentPackage (some cid) (some prog) (some au) st dp (some vs) vm ic dn now
         = .ok ⟨"1.0.0", cid, prog, au, st, dp, vs, vm, ic, dn, now⟩) := by
  constructor
  · intro cid prog st dp vs vm ic dn now
    cases cid <;> cases prog <;> cases vs <;>
      simp [mkComponentPackage, reqErr, noCheck]
  · intro cid prog au st dp vs vm ic dn now
    rfl

/-- Witness for C9 (amended): omitting `artifact_uris` fails naming it, and
the empty mapping is accepted. -/
theorem claim_C9_witness :
    (∃ errs, mkComponentPackage (some "comp_x") (some "prog_x") none [] []
        (some "passed") [] [] none "t0" = .error errs ∧ "artifact_uris" ∈ errs) ∧
    mkComponentPackage (some "comp_x") (some "prog_x") (some []) [] []
      (some "passed") [] [] none "t0"
      = .ok ⟨"1.0.0", "comp_x", "prog_x", [], [], [], "passed", [], [], none, "t0"⟩ :=
  ⟨claim_C9.1 (some "comp_x") (some "prog_x") [] [] (some "passed") [] [] none "t0",
   claim_C9.2 "comp_x" "prog_x" [] [] [] "passed" [] [] none "t0"⟩

/-! ### Claim C8: serialization round-trips -/

theorem decodeList_map {α : Type} (f : PyValue → Option α) (g : α → PyValue)
    (l : List α) (h : ∀ a ∈ l, f (g a) = some a) :
    decodeList f (l.map g) = some l := by
  induction l with
  | nil => rfl
  | cons a rest ih =>
    simp only [List.map_cons, decodeList]
    rw [h a (List.mem_cons_self a rest),
        ih (fun b hb => h b (List.mem_cons_of_mem a hb))]

theorem decodePairs_map {α : Type} (f : PyValue → Option α) (g : α → PyValue)
    (l : List (String × α)) (h : ∀ kv ∈ l, f (g kv.2) = some kv.2) :
    decodePairs f (l.map fun kv => (kv.1, g kv.2)) = some l := by
  induction l with
  | nil => rfl
  | cons kv rest ih =>
    obtain ⟨k, v⟩ := kv
    simp only [List.map_cons, decodePairs]
    rw [h (k, v) (List.mem_cons_self _ _),
        ih (fun kv hkv => h kv (List.mem_cons_of_mem _ hkv))]

theorem pvStrList?_arr (l : List String) : pvStrList? (pvStrArr l) = some l := by
  unfold pvStrArr pvStrList?
  exact decodeList_map pvStr? PyValue.str l (fun a _ => rfl)

theorem pvRatList?_arr (l : List ℚ) : pvRatList? (pvRatArr l) = some l := by
  unfold pvRatArr pvRatList?
  exact decodeList_map pvRat? PyValue.num l (fun a _ => rfl)

theorem pvStrDict?_dict (l : List (String × String)) :
    pvStrDict? (pvStrDict l) = some l := by
  unfold pvStrDict pvStrDict?
  exact decodePairs_map pvStr? PyValue.str l (fun kv _ => rfl)

theorem pvBoolDict?_dict (l : List (String × Bool)) :
    pvBoolDict? (pvBoolDict l) = some l := by
  unfold pvBoolDict pvBoolDict?
  exact decodePairs_map pvBool? PyValue.bool l (fun kv _ => rfl)

theorem pvRatDict?_dict (l : List (String × ℚ)) :
    pvRatDict? (pvRatDict l) = some l := by
  unfold pvRatDict pvRatDict?
  exact decodePairs_map pvRat? PyValue.num l (fun kv _ => rfl)

theorem pvDictArr?_arr (l : List (List (String × PyValue))) :
    pvDictArr? (pvDictArr l) = some l := by
  unfold pvDictArr pvDictArr?
  exact decodeList_map pvDict? PyValue.dict l (fun a _ => rfl)

theorem pvOptStr?_roundtrip (o : Option String) :
    pvOptStr? (pvOptStr o) = some o := by cases o <;> rfl

theorem pvOptRat?_roundtrip (o : Option ℚ) :
    pvOptRat? (pvOptRat o) = some o := by cases o <;> rfl

theorem pvOptBool?_roundtrip (o : Option Bool) :
    pvOptBool? (pvOptBool o) = some o := by cases o <;> rfl

theorem pvOptRatArr?_roundtrip (o : Option (List ℚ)) :
    pvOptRatArr? (pvOptRatArr o) = some o := by
  cases o with
  | none => rfl
  | some l =>
    have h := pvRatList?_arr l
    unfold pvRatArr at h
    simp [pvOptRatArr, pvOptRatArr?, pvRatArr, h]

theorem simulationTypeOfValue_value (t : SimulationType) :
    SimulationType.ofValue? t.value = some t := by cases t <;> rfl

theorem boundaryConditionTypeOfValue_value (t : BoundaryConditionType) :
    BoundaryConditionType.ofValue? t.value = some t := by cases t <;> rfl

theorem loadTypeOfValue_value (t : LoadType) :
    LoadType.ofValue? t.value = some t := by cases t <;> rfl

theorem simulationStatusOfValue_value (t : SimulationStatus) :
    SimulationStatus.ofValue? t.value = some t := by cases t <;> rfl

theorem boundaryCondition_validate_dump (b : BoundaryCondition) :
    BoundaryCondition.model_validate b.model_dump = some b := by
  obtain ⟨bt, gr, vals⟩ := b
  simp [BoundaryCondition.model_validate, BoundaryCondition.model_dump,
    reqField, defField, List.lookup, pvDict?, pvStr?,
    boundaryConditionTypeOfValue_value, pvRatDict?_dict]

theorem load_validate_dump (x : Load) :
    Load.model_validate x.model_dump = some x := by
  obtain ⟨lt, mag, dir, gr⟩ := x
  simp [Load.model_validate, Load.model_dump, reqField, defField, List.lookup,
    pvDict?, pvStr?, pvRat?, loadTypeOfValue_value, pvOptRatArr?_roundtrip]

theorem materialProperties_validate_dump (m : MaterialProperties)
    (h : m.validationErrors = []) :
    MaterialProperties.model_validate m.model_dump = some m := by
  obtain ⟨mn, y, p, d, ys, us, tc, sh⟩ := m
  simp [MaterialProperties.model_validate, MaterialProperties.model_dump,
    reqField, defField, List.lookup, pvDict?, pvStr?, pvRat?,
    pvOptRat?_roundtrip, h]

theorem meshSettings_validate_dump (m : MeshSettings)
    (h : m.validationErrors = []) :
    MeshSettings.model_validate m.model_dump = some m := by
  obtain ⟨sz, rr, o⟩ := m
  simp [MeshSettings.model_validate, MeshSettings.model_dump, reqField,
    defField, List.lookup, pvDict?, pvRat?, pvInt?, pvDictArr?_arr, h]

theorem componentIntent_validate_dump (x : ComponentIntent)
    (h : x.validationErrors = []) :
    ComponentIntent.model_validate x.model_dump = some x := by
  obtain ⟨sv, cid, prog, pasm, nm, fd, ics, mp, mfg, dc, rr, rev, fz, ca, ua⟩ := x
  simp [ComponentIntent.model_validate, ComponentIntent.model_dump,
    ComponentIntent.parseIdentity, ComponentIntent.parseRest, reqField,
    defField, List.lookup, pvDict?, pvStr?, pvInt?, pvBool?,
    pvOptStr?_roundtrip, pvStrList?_arr, h]

theorem componentPackage_validate_dump (x : ComponentPackage) :
    ComponentPackage.model_validate x.model_dump = some x := by
  obtain ⟨sv, cid, prog, uris, tags, dp, vs, vm, ic, dn, ga⟩ := x
  simp [ComponentPackage.model_validate, ComponentPackage.model_dump,
    ComponentPackage.parseIdentity, ComponentPackage.parseRest, reqField,
    defField, List.lookup, pvDict?, pvStr?, pvOptStr?_roundtrip,
    pvStrDict?_dict, pvStrList?_arr, pvBoolDict?_dict]

theorem assemblyIntent_validate_dump (x : AssemblyIntent)
    (h : x.validationErrors = []) :
    AssemblyIntent.model_validate x.model_dump = some x := by
  obtain ⟨sv, aid, prog, pasm, nm, fd, cc, ca, ics, mi, ac, rr, rev, fz, cat, uat⟩ := x
  simp [AssemblyIntent.model_validate, AssemblyIntent.model_dump,
    AssemblyIntent.parseIdentity, AssemblyIntent.parseStructure,
    AssemblyIntent.parseLifecycle, reqField, defField, List.lookup, pvDict?,
    pvStr?, pvInt?, pvBool?, pvOptStr?_roundtrip, pvStrList?_arr, h]

theorem assemblyPackage_validate_dump (x : AssemblyPackage) :
    AssemblyPackage.model_validate x.model_dump = some x := by
  obtain ⟨sv, aid, prog, uris, bom, mr, vs, ifc, cv, ec, an, ga⟩ := x
  simp [AssemblyPackage.model_validate, AssemblyPackage.model_dump,
    AssemblyPackage.parseIdentity, AssemblyPackage.parseRest, reqField,
    defField, List.lookup, pvDict?, pvStr?, pvOptStr?_roundtrip,
    pvOptBool?_roundtrip, pvStrDict?_dict, pvStrList?_arr, pvDictArr?_arr]

theorem simulationRequest_validate_dump (x : SimulationRequest)
    (h : x.validationErrors = []) :
    SimulationRequest.model_validate x.model_dump = some x := by
  obtain ⟨sv, sid, cid, prog, uri, st, bcs, lds, mat, mesh, as_⟩ := x
  rcases List.append_eq_nil.mp
      (by simpa [SimulationRequest.validationErrors] using h) with ⟨hmat, hmesh⟩
  have hbcs : decodeList BoundaryCondition.model_validate
      (bcs.map BoundaryCondition.model_dump) = some bcs :=
    decodeList_map _ _ bcs (fun a _ => boundaryCondition_validate_dump a)
  have hlds : decodeList Load.model_validate (lds.map Load.model_dump) = some lds :=
    decodeList_map _ _ lds (fun a _ => load_validate_dump a)
  simp [SimulationRequest.model_validate, SimulationRequest.model_dump,
    SimulationRequest.parseIdentity, SimulationRequest.parsePhysics, reqField,
    defField, List.lookup, pvDict?, pvStr?, simulationTypeOfValue_value,
    pvListOf?, hbcs, hlds, materialProperties_validate_dump mat hmat,
    meshSettings_validate_dump mesh hmesh]

theorem simulationReport_validate_dump (x : SimulationReport) :
    SimulationReport.model_validate x.model_dump = some x := by
  obtain ⟨sv, rid, cid, prog, st, stat, ms, md, sf, pf, sm, ar, ga⟩ := x
  simp [SimulationReport.model_validate, SimulationReport.model_dump,
    SimulationReport.parseIdentity, SimulationReport.parseResults, reqField,
    defField, List.lookup, pvDict?, pvStr?, simulationTypeOfValue_value,
    simulationStatusOfValue_value, pvOptRat?_roundtrip, pvOptBool?_roundtrip,
    pvStrList?_arr]

/-- C8: every Intent/Package/Request/Report built from valid fields
round-trips through its JSON-compatible mapping (`model_dump` then
`model_validate` returns the original value), the dumped mapping carries
exactly the Python field names, and enumeration values travel as their
literal lowercase strings (e.g. `static_stress`), not numeric codes. -/
theorem claim_C8 :
    (∀ x : ComponentIntent, x.validationErrors = [] →
       ComponentIntent.model_validate x.model_dump = some x) ∧
    (∀ x : ComponentPackage, ComponentPackage.model_validate x.model_dump = some x) ∧
    (∀ x : AssemblyIntent, x.validationErrors = [] →
       AssemblyIntent.model_validate x.model_dump = some x) ∧
    (∀ x : AssemblyPackage, AssemblyPackage.model_validate x.model_dump = some x) ∧
    (∀ x : SimulationRequest, x.validationErrors = [] →
       SimulationRequest.model_validate x.model_dump = some x) ∧
    (∀ x : SimulationReport, SimulationReport.model_validate x.model_dump = some x) ∧
    (∀ x : ComponentIntent, (pvDict? x.model_dump).map (List.map Prod.fst) =
       some ["schema_version", "component_id", "parent_program_id",
             "parent_assembly_id", "component_name", "functional_description",
             "interface_contracts", "material_preference", "manufacturing_process",
             "design_constraints", "reference_requirements", "revision",
             "is_frozen", "created_at", "updated_at"]) ∧
    (∀ x : SimulationReport, List.lookup "simulation_type"
       ((pvDict? x.model_dump).getD []) = some (.str x.simulation_type.value)) ∧
    (∀ t : SimulationType, SimulationType.ofValue? t.value = some t) ∧
    SimulationType.value .static_stress = "static_stress" := by
  refine ⟨componentIntent_validate_dump, componentPackage_validate_dump,
    assemblyIntent_validate_dump, assemblyPackage_validate_dump,
    simulationRequest_validate_dump, simulationReport_validate_dump,
    ?_, ?_, simulationTypeOfValue_value, rfl⟩
  · intro x; rfl
  · intro x; rfl

/-- Witness for C8 at concrete valid entities of each kind. -/
theorem claim_C8_witness :
    ComponentIntent.model_validate ciEx.model_dump = some ciEx ∧
    ComponentPackage.model_validate cpEx.model_dump = some cpEx ∧
    AssemblyIntent.model_validate aiEx.model_dump = some aiEx ∧
    AssemblyPackage.model_validate apEx.model_dump = some apEx ∧
    SimulationRequest.model_validate srEx.model_dump = some srEx ∧
    SimulationReport.model_validate repEx.model_dump = some repEx :=
  ⟨claim_C8.1 ciEx rfl,
   claim_C8.2.1 cpEx,
   claim_C8.2.2.1 aiEx rfl,
   claim_C8.2.2.2.1 apEx,
   claim_C8.2.2.2.2.1 srEx (by
     norm_num [SimulationRequest.validationErrors, MaterialProperties.validationErrors,
       MeshSettings.validationErrors, srEx, mpEx, meshEx, ratGt0Err, optRatGt0Err]),
   claim_C8.2.2.2.2.2.1 repEx⟩

end MechUtil
